import Mathlib

/-!
Verification of the apicrafter schema-driven request construction and
validation subsystem (`schema_loader.py`, `validator.py`, `field_prompter.py`).

The Python code works over JSON-like runtime values (the decoded schema
document, the per-field schema dictionaries and the request data), so the
embedding is built on a `Value` type mirroring Python's JSON-ish data:
`None`, `bool`, `int`, `float`, `str`, `list`, `dict`.  Modelling choices:

* Python `bool` is a subclass of `int`; numeric predicates and comparisons
  therefore accept `Value.bool`, mapping `True`/`False` to `1`/`0`.
* Python floats are modelled as exact rationals (`Rat`).  Every concrete
  float appearing in this development is small and integral, so no
  floating-point rounding behaviour is exercised.
* Dictionary keys are modelled as `String`.  All dictionaries handled by the
  loader/validator come from decoded JSON/YAML documents or are built by the
  loader itself, and have string keys.  Python dicts preserve insertion
  order and keep at most one entry per key; association lists with a
  first-match lookup model this (the lists built here never repeat a key).
* Operations that raise in Python (`AttributeError` on `.get` of a
  non-dict, `TypeError` on ill-typed `in`/comparisons, `re.error` on an
  invalid pattern, ...) are modelled with `Except PyErr`.
* `re` regular expressions are modelled for the syntactic subset used by
  the code under analysis: literal characters, escaped literals, `.`,
  grouping `( )`, postfix `* + ?`, and alternation `|`.  Patterns outside
  this subset are reported as compile failures; `(` alone is a compile
  failure both here and in Python.  `re.match` anchors at the start of the
  string only (prefix match), `re.fullmatch` requires the whole string.
-/

namespace ApiCrafter

/-- A Python/JSON runtime value (see the module docstring for the
modelling conventions). -/
inductive Value where
  | null
  | bool (b : Bool)
  | int (n : Int)
  | float (q : Rat)
  | str (s : String)
  | list (xs : List Value)
  | dict (xs : List (String × Value))

/-- Exceptions the modelled Python code can raise. -/
inductive PyErr where
  | attributeError (msg : String)
  | typeError (msg : String)
  | keyError (msg : String)
  | indexError (msg : String)
  | reError (msg : String)
  | validationError (msg : String)

/-- First-match association lookup: `d[k]`/`d.get(k)` on a string-keyed
Python dict (the dicts built here never repeat a key). -/
def Value.lookup (k : String) : List (String × Value) → Option Value
  | [] => none
  | (k', v) :: rest => if k' = k then some v else Value.lookup k rest

/-- `d[k] = v` on a string-keyed dict: overwrite in place if the key exists
(keeping its position), else append. -/
def Value.setItem (k : String) (v : Value) : List (String × Value) → List (String × Value)
  | [] => [(k, v)]
  | (k', w) :: rest => if k' = k then (k, v) :: rest else (k', w) :: Value.setItem k v rest

/-- Python truthiness (`bool(x)`). -/
def pyTruthy : Value → Bool
  | .null => false
  | .bool b => b
  | .int n => n ≠ 0
  | .float q => q ≠ 0
  | .str s => s ≠ ""
  | .list xs => !xs.isEmpty
  | .dict xs => !xs.isEmpty

/-- The numeric reading of a value, when Python treats it as a number
(`bool` counts: `True == 1`, `False == 0`). -/
def Value.toRat? : Value → Option Rat
  | .bool b => some (if b then 1 else 0)
  | .int n => some n
  | .float q => some q
  | _ => none

/-- `type(x).__name__`. -/
def Value.typeName : Value → String
  | .null => "NoneType"
  | .bool _ => "bool"
  | .int _ => "int"
  | .float _ => "float"
  | .str _ => "str"
  | .list _ => "list"
  | .dict _ => "dict"

/-- `isinstance(x, int)` — true for `bool` too (subclass). -/
def isInstInt : Value → Bool
  | .int _ => true
  | .bool _ => true
  | _ => false

/-- `isinstance(x, (int, float))`. -/
def isInstNum : Value → Bool
  | .int _ => true
  | .bool _ => true
  | .float _ => true
  | _ => false

mutual
/-- Python `==` on values: numbers compare across `int`/`float`/`bool`
(`1 == 1.0 == True`); strings, lists and dicts compare structurally;
`None == None`; everything else is unequal. -/
def pyEq (a b : Value) : Bool :=
  match a.toRat?, b.toRat? with
  | some x, some y => x = y
  | _, _ =>
    match a, b with
    | .null, .null => true
    | .str s, .str t => s = t
    | .list xs, .list ys => pyEqList xs ys
    | .dict xs, .dict ys => xs.length = ys.length && pyEqEntries xs ys
    | _, _ => false
termination_by (sizeOf a, 1)

/-- List equality, pointwise by `pyEq`. -/
def pyEqList : List Value → List Value → Bool
  | [], [] => true
  | x :: xs, y :: ys => pyEq x y && pyEqList xs ys
  | _, _ => false
termination_by xs _ => (sizeOf xs, 0)

/-- Dict equality: every entry of the first dict must be matched by key in
the second (lengths are compared by the caller; keys are unique). -/
def pyEqEntries : List (String × Value) → List (String × Value) → Bool
  | [], _ => true
  | (k, v) :: rest, ys =>
    (match Value.lookup k ys with
     | some w => pyEq v w
     | none => false) && pyEqEntries rest ys
termination_by xs _ => (sizeOf xs, 0)
end

/-- `str(x)`/`f"{x}"`: Python's display form.  Floats print with a decimal
point; strings inside containers are quoted (a close rendering of `repr`;
only used to build report messages). -/
def pyStrAtom : Value → String
  | .null => "None"
  | .bool b => if b then "True" else "False"
  | .int n => toString n
  | .float q => if q.den = 1 then s!"{q.num}.0" else toString q
  | .str s => s
  | .list _ => "[...]"
  | .dict _ => "\x7b...\x7d"

mutual
/-- Comma-joined `repr`-style rendering of list elements. -/
def pyStrList : List Value → String
  | [] => ""
  | [x] => pyStrInner x
  | x :: xs => pyStrInner x ++ ", " ++ pyStrList xs
termination_by xs => (sizeOf xs, 0)

/-- Comma-joined rendering of dict entries. -/
def pyStrEntries : List (String × Value) → String
  | [] => ""
  | [(k, v)] => "\x27" ++ k ++ "\x27: " ++ pyStrInner v
  | (k, v) :: xs => "\x27" ++ k ++ "\x27: " ++ pyStrInner v ++ ", " ++ pyStrEntries xs
termination_by xs => (sizeOf xs, 0)

/-- Rendering of a value nested inside a container (strings get quotes, as
in Python `repr`). -/
def pyStrInner : Value → String
  | .str s => "\x27" ++ s ++ "\x27"
  | .list xs => "[" ++ pyStrList xs ++ "]"
  | .dict xs => "\x7b" ++ pyStrEntries xs ++ "\x7d"
  | v => pyStrAtom v
termination_by v => (sizeOf v, 1)
end

/-- `str(x)` including container rendering. -/
def pyStr : Value → String
  | .list xs => "[" ++ pyStrList xs ++ "]"
  | .dict xs => "\x7b" ++ pyStrEntries xs ++ "\x7d"
  | .str s => s
  | v => pyStrAtom v

/-! ### Regular expressions (`re` module, subset — see module docstring) -/

/-- Regular-expression abstract syntax for the modelled subset. -/
inductive Regex where
  | emp                       -- matches nothing
  | eps                       -- matches the empty string
  | chr (c : Char)            -- a literal character
  | dot                       -- `.`
  | cat (r s : Regex)         -- concatenation
  | alt (r s : Regex)         -- `r|s`
  | star (r : Regex)          -- `r*`

/-- Does the regex accept the empty string? -/
def Regex.nullable : Regex → Bool
  | .emp => false
  | .eps => true
  | .chr _ => false
  | .dot => false
  | .cat r s => r.nullable && s.nullable
  | .alt r s => r.nullable || s.nullable
  | .star _ => true

/-- Brzozowski derivative of a regex with respect to one character. -/
def Regex.deriv (a : Char) : Regex → Regex
  | .emp => .emp
  | .eps => .emp
  | .chr c => if c = a then .eps else .emp
  | .dot => .eps
  | .cat r s =>
    if r.nullable then .alt (.cat (r.deriv a) s) (s.deriv a) else .cat (r.deriv a) s
  | .alt r s => .alt (r.deriv a) (s.deriv a)
  | .star r => .cat (r.deriv a) (.star r)

/-- Does the regex match the whole character list? -/
def Regex.matchList (r : Regex) : List Char → Bool
  | [] => r.nullable
  | c :: cs => (r.deriv c).matchList cs

/-- `re.fullmatch(r, s)` truthiness: the regex matches the entire string. -/
def reFullmatch (r : Regex) (s : String) : Bool :=
  r.matchList s.data

/-- `re.match(r, s)` truthiness: the regex matches some prefix of the
string, anchored at position 0 only. -/
def reMatch (r : Regex) (s : String) : Bool :=
  (List.range (s.length + 1)).any fun k => r.matchList (s.data.take k)

/-- Characters with special meaning in the modelled pattern syntax. -/
def regexMeta : List Char :=
  ['(', ')', '[', ']', '\x7b', '\x7d', '*', '+', '?', '|', '.', '^', '$', '\\']

mutual
/-- Parse an alternation (`a|b|...`).  All parsers take a fuel argument
(decremented on every mutual call) purely to make the recursion structural;
the fuel given by `Regex.compile` is always sufficient. -/
def parseRegexAlt : Nat → List Char → Except PyErr (Regex × List Char)
  | 0, _ => .error (.reError "pattern too deeply nested for the modelled parser")
  | fuel + 1, cs => do
    let (r, rest) ← parseRegexCat fuel cs
    match rest with
    | '|' :: rest2 => do
      let (r2, rest3) ← parseRegexAlt fuel rest2
      pure (.alt r r2, rest3)
    | _ => pure (r, rest)

/-- Parse a concatenation of repeated atoms; stops at `)`/`|`/end. -/
def parseRegexCat : Nat → List Char → Except PyErr (Regex × List Char)
  | 0, _ => .error (.reError "pattern too deeply nested for the modelled parser")
  | fuel + 1, cs =>
    match cs with
    | [] => pure (.eps, [])
    | ')' :: _ => pure (.eps, cs)
    | '|' :: _ => pure (.eps, cs)
    | _ => do
      let (r, rest) ← parseRegexRep fuel cs
      let (r2, rest2) ← parseRegexCat fuel rest
      pure (.cat r r2, rest2)

/-- Parse one atom with an optional single postfix quantifier; a second
consecutive quantifier is a compile error (Python: "multiple repeat"). -/
def parseRegexRep : Nat → List Char → Except PyErr (Regex × List Char)
  | 0, _ => .error (.reError "pattern too deeply nested for the modelled parser")
  | fuel + 1, cs => do
    let (r, rest) ← parseRegexAtom fuel cs
    match rest with
    | '*' :: rest2 =>
      match rest2 with
      | '*' :: _ => .error (.reError "multiple repeat")
      | '+' :: _ => .error (.reError "multiple repeat")
      | '?' :: _ => .error (.reError "multiple repeat")
      | _ => pure (.star r, rest2)
    | '+' :: rest2 =>
      match rest2 with
      | '*' :: _ => .error (.reError "multiple repeat")
      | '+' :: _ => .error (.reError "multiple repeat")
      | '?' :: _ => .error (.reError "multiple repeat")
      | _ => pure (.cat r (.star r), rest2)
    | '?' :: rest2 =>
      match rest2 with
      | '*' :: _ => .error (.reError "multiple repeat")
      | '+' :: _ => .error (.reError "multiple repeat")
      | '?' :: _ => .error (.reError "multiple repeat")
      | _ => pure (.alt r .eps, rest2)
    | _ => pure (r, rest)

/-- Parse a single atom: a group, `.`, an escaped literal, or a plain
character.  Constructs outside the modelled subset (character classes,
anchors, counted repeats, alphanumeric escapes) are compile errors. -/
def parseRegexAtom : Nat → List Char → Except PyErr (Regex × List Char)
  | 0, _ => .error (.reError "pattern too deeply nested for the modelled parser")
  | fuel + 1, cs =>
    match cs with
    | [] => .error (.reError "nothing to parse")
    | '(' :: rest => do
      let (r, rest2) ← parseRegexAlt fuel rest
      match rest2 with
      | ')' :: rest3 => pure (r, rest3)
      | _ => .error (.reError "missing ), unterminated subpattern")
    | '.' :: rest => pure (.dot, rest)
    | '\\' :: [] => .error (.reError "bad escape (end of pattern)")
    | '\\' :: c :: rest =>
      if c.isAlphanum then .error (.reError "escape outside the modelled subset")
      else pure (.chr c, rest)
    | '*' :: _ => .error (.reError "nothing to repeat")
    | '+' :: _ => .error (.reError "nothing to repeat")
    | '?' :: _ => .error (.reError "nothing to repeat")
    | c :: rest =>
      if c ∈ ['[', ']', '\x7b', '\x7d', '^', '$', ')', '|'] then
        .error (.reError "construct outside the modelled subset")
      else pure (.chr c, rest)
end

/-- `re.compile(p)`: parse a pattern string into a `Regex`, or fail with
`re.error` (or a subset-restriction error) as Python's compiler does. -/
def Regex.compile (p : String) : Except PyErr Regex := do
  let (r, rest) ← parseRegexAlt (4 * p.length + 8) p.data
  match rest with
  | [] => pure r
  | _ => .error (.reError "unbalanced parenthesis")

/-! ### JSON (`json.loads` / `json.dumps`) -/

/-- Is the character JSON whitespace? -/
def jsonWs (c : Char) : Bool :=
  c = ' ' || c = '\n' || c = '\t' || c = '\r'

/-- Skip JSON whitespace. -/
def jsonSkipWs : List Char → List Char
  | c :: cs => if jsonWs c then jsonSkipWs cs else c :: cs
  | [] => []

/-- Take a maximal run of decimal digits. -/
def jsonDigits : List Char → List Char × List Char
  | c :: cs =>
    if c.isDigit then
      let (ds, rest) := jsonDigits cs
      (c :: ds, rest)
    else ([], c :: cs)
  | [] => ([], [])

/-- Digits to a natural number. -/
def jsonDigitsVal (ds : List Char) : Nat :=
  ds.foldl (fun acc c => acc * 10 + (c.toNat - '0'.toNat)) 0

/-- Parse the body of a JSON string literal after the opening quote
(supporting the standard escapes). -/
def jsonString (fuel : Nat) (cs : List Char) : Option (String × List Char) :=
  match fuel, cs with
  | 0, _ => none
  | _, [] => none
  | fuel + 1, c :: rest =>
    if c = '"' then some ("", rest)
    else if c = '\\' then
      match rest with
      | [] => none
      | e :: rest2 =>
        let esc : Option (Char × List Char) :=
          if e = '"' then some ('"', rest2)
          else if e = '\\' then some ('\\', rest2)
          else if e = '/' then some ('/', rest2)
          else if e = 'n' then some ('\n', rest2)
          else if e = 't' then some ('\t', rest2)
          else if e = 'r' then some ('\r', rest2)
          else if e = 'b' then some ('\x08', rest2)
          else if e = 'f' then some ('\x0c', rest2)
          else if e = 'u' then
            match rest2 with
            | h1 :: h2 :: h3 :: h4 :: rest3 =>
              let hv := fun (h : Char) =>
                if h.isDigit then some (h.toNat - '0'.toNat)
                else if 'a' ≤ h ∧ h ≤ 'f' then some (h.toNat - 'a'.toNat + 10)
                else if 'A' ≤ h ∧ h ≤ 'F' then some (h.toNat - 'A'.toNat + 10)
                else none
              match hv h1, hv h2, hv h3, hv h4 with
              | some a, some b, some c', some d =>
                some (Char.ofNat (((a * 16 + b) * 16 + c') * 16 + d), rest3)
              | _, _, _, _ => none
            | _ => none
          else none
        match esc with
        | some (c', rest') =>
          match jsonString fuel rest' with
          | some (s, rest'') => some (String.mk (c' :: s.data), rest'')
          | none => none
        | none => none
    else
      match jsonString fuel rest with
      | some (s, rest') => some (String.mk (c :: s.data), rest')
      | none => none

/-- Parse a JSON number (integer or decimal/exponent form; the latter
becomes a `float`). -/
def jsonNumber (cs : List Char) : Option (Value × List Char) :=
  let (neg, cs1) := match cs with
    | '-' :: rest => (true, rest)
    | _ => (false, cs)
  let (intDs, cs2) := jsonDigits cs1
  if intDs.isEmpty then none
  else
    let intVal : Int := jsonDigitsVal intDs
    let (frac, cs3) := match cs2 with
      | '.' :: rest =>
        let (fds, rest2) := jsonDigits rest
        if fds.isEmpty then (none, cs2) else (some fds, rest2)
      | _ => (none, cs2)
    let (expo, cs4) := match cs3 with
      | e :: rest =>
        if e = 'e' ∨ e = 'E' then
          let (sgn, rest2) := match rest with
            | '+' :: r => ((1 : Int), r)
            | '-' :: r => ((-1 : Int), r)
            | _ => ((1 : Int), rest)
          let (eds, rest3) := jsonDigits rest2
          if eds.isEmpty then (none, cs3)
          else (some (sgn * (jsonDigitsVal eds : Int)), rest3)
        else (none, cs3)
      | [] => (none, cs3)
    match frac, expo with
    | none, none => some (.int (if neg then -intVal else intVal), cs2)
    | _, _ =>
      let fds := frac.getD []
      let mantissa : Int := intVal * (10 ^ fds.length : Nat) + (jsonDigitsVal fds : Int)
      let e : Int := (expo.getD 0) - (fds.length : Int)
      let mag : Rat :=
        if e ≥ 0 then (mantissa : Rat) * ((10 : Rat) ^ e.toNat)
        else (mantissa : Rat) / ((10 : Rat) ^ (-e).toNat)
      some (.float (if neg then -mag else mag), cs4)

mutual
/-- Parse one JSON value. -/
def jsonValue : Nat → List Char → Option (Value × List Char)
  | 0, _ => none
  | fuel + 1, cs =>
    match jsonSkipWs cs with
    | [] => none
    | c :: rest =>
      if c = 'n' then
        match rest with
        | 'u' :: 'l' :: 'l' :: rest2 => some (.null, rest2)
        | _ => none
      else if c = 't' then
        match rest with
        | 'r' :: 'u' :: 'e' :: rest2 => some (.bool true, rest2)
        | _ => none
      else if c = 'f' then
        match rest with
        | 'a' :: 'l' :: 's' :: 'e' :: rest2 => some (.bool false, rest2)
        | _ => none
      else if c = '"' then
        match jsonString (rest.length + 1) rest with
        | some (s, rest2) => some (.str s, rest2)
        | none => none
      else if c = '[' then
        match jsonSkipWs rest with
        | ']' :: rest2 => some (.list [], rest2)
        | rest2 =>
          match jsonElems fuel rest2 with
          | some (xs, rest3) =>
            match jsonSkipWs rest3 with
            | ']' :: rest4 => some (.list xs, rest4)
            | _ => none
          | none => none
      else if c = '\x7b' then
        match jsonSkipWs rest with
        | '\x7d' :: rest2 => some (.dict [], rest2)
        | rest2 =>
          match jsonMembers fuel rest2 with
          | some (xs, rest3) =>
            match jsonSkipWs rest3 with
            | '\x7d' :: rest4 => some (.dict xs, rest4)
            | _ => none
          | none => none
      else jsonNumber (c :: rest)

/-- Parse comma-separated array elements. -/
def jsonElems : Nat → List Char → Option (List Value × List Char)
  | 0, _ => none
  | fuel + 1, cs => do
    let (v, rest) ← jsonValue fuel cs
    match jsonSkipWs rest with
    | ',' :: rest2 => do
      let (xs, rest3) ← jsonElems fuel rest2
      pure (v :: xs, rest3)
    | rest2 => pure ([v], rest2)

/-- Parse comma-separated object members. -/
def jsonMembers : Nat → List Char → Option (List (String × Value) × List Char)
  | 0, _ => none
  | fuel + 1, cs =>
    match jsonSkipWs cs with
    | '"' :: rest => do
      let (k, rest2) ← jsonString (rest.length + 1) rest
      match jsonSkipWs rest2 with
      | ':' :: rest3 => do
        let (v, rest4) ← jsonValue fuel rest3
        match jsonSkipWs rest4 with
        | ',' :: rest5 => do
          let (xs, rest6) ← jsonMembers fuel rest5
          pure ((k, v) :: xs, rest6)
        | rest5 => pure ([(k, v)], rest5)
      | _ => none
    | _ => none
end

/-- `json.loads(s)`: parse, requiring the whole input to be consumed;
`none` models `json.JSONDecodeError`. -/
def jsonLoads (s : String) : Option Value :=
  match jsonValue (s.length + 1) s.data with
  | some (v, rest) => if (jsonSkipWs rest).isEmpty then some v else none
  | none => none

/-- Escape a string for JSON output (the escapes needed here). -/
def jsonEscape (s : String) : String :=
  s.data.foldl
    (fun acc c =>
      if c = '"' then acc ++ "\\\""
      else if c = '\\' then acc ++ "\\\\"
      else if c = '\n' then acc ++ "\\n"
      else if c = '\t' then acc ++ "\\t"
      else if c = '\r' then acc ++ "\\r"
      else acc.push c)
    ""

/-- `indent`-spaces prefix used by `json.dumps(..., indent=2)`. -/
def jsonIndent (level : Nat) : String :=
  String.mk (List.replicate (2 * level) ' ')

mutual
/-- `json.dumps(v, indent=2)` at a given nesting level. -/
def jsonDumps (level : Nat) : Value → String
  | .null => "null"
  | .bool b => if b then "true" else "false"
  | .int n => toString n
  | .float q => if q.den = 1 then s!"{q.num}.0" else toString q
  | .str s => "\"" ++ jsonEscape s ++ "\""
  | .list [] => "[]"
  | .list xs =>
    "[\n" ++ jsonDumpsElems level xs ++ "\n" ++ jsonIndent level ++ "]"
  | .dict [] => "\x7b\x7d"
  | .dict xs =>
    "\x7b\n" ++ jsonDumpsMembers level xs ++ "\n" ++ jsonIndent level ++ "\x7d"
termination_by v => (sizeOf v, 1)

/-- Array elements, one per line. -/
def jsonDumpsElems (level : Nat) : List Value → String
  | [] => ""
  | [x] => jsonIndent (level + 1) ++ jsonDumps (level + 1) x
  | x :: xs =>
    jsonIndent (level + 1) ++ jsonDumps (level + 1) x ++ ",\n" ++ jsonDumpsElems level xs
termination_by xs => (sizeOf xs, 0)

/-- Object members, one per line. -/
def jsonDumpsMembers (level : Nat) : List (String × Value) → String
  | [] => ""
  | [(k, v)] => jsonIndent (level + 1) ++ "\"" ++ jsonEscape k ++ "\": " ++ jsonDumps (level + 1) v
  | (k, v) :: xs =>
    jsonIndent (level + 1) ++ "\"" ++ jsonEscape k ++ "\": " ++ jsonDumps (level + 1) v
      ++ ",\n" ++ jsonDumpsMembers level xs
termination_by xs => (sizeOf xs, 0)
end

/-! ### Shared Python primitives used by the validator and loader -/

/-- `x.get(k, dflt)`: raises `AttributeError` unless `x` is a dict. -/
def py_dict_get (v : Value) (k : String) (dflt : Value) : Except PyErr Value :=
  match v with
  | .dict d => pure ((Value.lookup k d).getD dflt)
  | _ => .error (.attributeError (v.typeName ++ " object has no attribute get"))

/-- Substring containment on character lists (`t in s` for strings). -/
def listContains (t : List Char) : List Char → Bool
  | [] => t.isEmpty
  | c :: rest => t.isPrefixOf (c :: rest) || listContains t rest

/-- Is the value a `Value.dict`? -/
def Value.isDictV : Value → Bool
  | .dict _ => true
  | _ => false

/-- Is the value a `Value.list`? -/
def Value.isListV : Value → Bool
  | .list _ => true
  | _ => false

/-- `v == lit` for a string literal (Python `==` between an arbitrary
value and a `str`). -/
def valueIsStr (v : Value) (lit : String) : Bool :=
  match v with
  | .str t => t = lit
  | _ => false

/-- `needle in container`: list/str/dict membership with Python's raising
behaviour (`in` over a non-container or with an unhashable dict key raises
`TypeError`; `in` over a string is substring containment). -/
def pyIn (needle container : Value) : Except PyErr Bool :=
  match container with
  | .list xs => pure (xs.any fun x => pyEq needle x)
  | .str s =>
    match needle with
    | .str t => pure (listContains t.data s.data)
    | _ => .error (.typeError "in <string> requires string as left operand")
  | .dict d =>
    match needle with
    | .list _ => .error (.typeError "unhashable type: list")
    | .dict _ => .error (.typeError "unhashable type: dict")
    | .str k => pure (Value.lookup k d).isSome
    | _ => pure false
  | _ => .error (.typeError ("argument of type " ++ container.typeName ++ " is not iterable"))

/-- `container[key]` with Python's raising behaviour. -/
def pyGetItem (container key : Value) : Except PyErr Value :=
  match container with
  | .dict d =>
    match key with
    | .str k =>
      match Value.lookup k d with
      | some v => pure v
      | none => .error (.keyError k)
    | .list _ => .error (.typeError "unhashable type: list")
    | .dict _ => .error (.typeError "unhashable type: dict")
    | _ => .error (.keyError (pyStr key))
  | .list xs =>
    match key.toRat? with
    | some q =>
      if q.den = 1 ∧ 0 ≤ q.num ∧ q.num < xs.length then
        match xs.get? q.num.toNat with
        | some v => pure v
        | none => .error (.indexError "list index out of range")
      else .error (.indexError "list index out of range")
    | none => .error (.typeError "list indices must be integers")
  | .str s =>
    match key.toRat? with
    | some q =>
      if q.den = 1 ∧ 0 ≤ q.num ∧ q.num < s.length then
        match s.data.get? q.num.toNat with
        | some c => pure (.str (String.mk [c]))
        | none => .error (.indexError "string index out of range")
      else .error (.indexError "string index out of range")
    | none => .error (.typeError "string indices must be integers")
  | _ => .error (.typeError (container.typeName ++ " object is not subscriptable"))

/-- `x < w` for a number `x` against an arbitrary value (Python 3 raises
`TypeError` for a number/non-number comparison). -/
def pyLtNum (x : Rat) (w : Value) : Except PyErr Bool :=
  match w.toRat? with
  | some y => pure (x < y)
  | none => .error (.typeError "comparison not supported between instances")

/-- `x > w` for a number against an arbitrary value. -/
def pyGtNum (x : Rat) (w : Value) : Except PyErr Bool :=
  match w.toRat? with
  | some y => pure (y < x)
  | none => .error (.typeError "comparison not supported between instances")

/-- Is the value usable as a `set` element / dict key (`hash(x)` works)? -/
def pyHashable : Value → Bool
  | .list _ => false
  | .dict _ => false
  | _ => true

/-- Deduplicate by `pyEq`, keeping first occurrences.  CPython iterates a
`set` in hash order; the claims checked here never depend on the relative
order of set elements, so insertion order stands in for it. -/
def pySetDedup : List Value → List Value
  | [] => []
  | x :: xs =>
    let rest := pySetDedup xs
    if rest.any fun y => pyEq x y then rest else x :: pySetDedup xs

/-- `set(v)`: iterate a list/str/dict into a set; raises `TypeError` on a
non-iterable or on unhashable elements. -/
def pySet (v : Value) : Except PyErr (List Value) :=
  match v with
  | .list xs =>
    if xs.all pyHashable then pure (pySetDedup xs)
    else .error (.typeError "unhashable type")
  | .str s => pure (pySetDedup (s.data.map fun c => .str (String.mk [c])))
  | .dict d => pure (d.map fun kv => .str kv.1)
  | _ => .error (.typeError (v.typeName ++ " object is not iterable"))

/-- ASCII `str.lower()` (header names in scope are ASCII). -/
def pyLower (s : String) : String := ⟨s.data.map Char.toLower⟩

/-- ASCII `str.upper()`. -/
def pyUpper (s : String) : String := ⟨s.data.map Char.toUpper⟩

/-- `s.strip("/")`. -/
def pyStripSlashes (s : String) : String :=
  String.mk (((s.data.dropWhile (· = '/')).reverse.dropWhile (· = '/')).reverse)

/-- `s.split(sep)` on a single-character separator (`"".split("/") == [""]`). -/
def pySplitOn (sep : Char) : List Char → List String
  | [] => [""]
  | c :: cs =>
    if c = sep then "" :: pySplitOn sep cs
    else
      match pySplitOn sep cs with
      | h :: t => String.mk (c :: h.data) :: t
      | [] => [String.mk [c]]

/-! ### `validator.py` -/

/-- One entry of `ValidationResult.errors` (the `ValidationError` record:
field path, message, offending value). -/
structure ValidationError where
  field : String
  message : String
  value : Option Value := none

/-- `ValidationResult`: the report accumulated by the validator.  The
source also carries an `is_valid` flag which `validate_request` finally
sets to `len(errors) == 0`; here it is the derived `isValid`. -/
structure ValidationResult where
  errors : List ValidationError := []
  warnings : List String := []
  suggestions : List String := []

/-- `is_valid` as `validate_request` returns it. -/
def ValidationResult.isValid (r : ValidationResult) : Bool := r.errors.isEmpty

/-- The empty report. -/
def ValidationResult.empty : ValidationResult := ⟨[], [], []⟩

/-- The type-check `elif` chain of `validate_field_value` (at most one
branch fires; each compares `field_type` to a literal and tests
`isinstance`, with `bool` counting as `int` and as a number). -/
def typeCheckErrs (fieldPath : String) (value : Value) (fieldType : Value) : List ValidationError :=
  match fieldType with
  | .str "string" =>
    match value with
    | .str _ => []
    | _ => [⟨fieldPath, "Expected string, got " ++ value.typeName, some value⟩]
  | .str "integer" =>
    if isInstInt value then []
    else [⟨fieldPath, "Expected integer, got " ++ value.typeName, some value⟩]
  | .str "number" =>
    if isInstNum value then []
    else [⟨fieldPath, "Expected number, got " ++ value.typeName, some value⟩]
  | .str "boolean" =>
    match value with
    | .bool _ => []
    | _ => [⟨fieldPath, "Expected boolean, got " ++ value.typeName, some value⟩]
  | .str "array" =>
    match value with
    | .list _ => []
    | _ => [⟨fieldPath, "Expected array, got " ++ value.typeName, some value⟩]
  | .str "object" =>
    match value with
    | .dict _ => []
    | _ => [⟨fieldPath, "Expected object, got " ++ value.typeName, some value⟩]
  | _ => []

/-- `if enum_values and value not in enum_values` in `validate_field_value`. -/
def enumCheckErrs (fieldPath : String) (value enumValues : Value) : Except PyErr (List ValidationError) :=
  if pyTruthy enumValues then do
    let mem ← pyIn value enumValues
    if mem then pure []
    else
      let ev := pyStr enumValues
      let vv := pyStr value
      pure [⟨fieldPath, s!"Value must be one of {ev}, got {vv}", some value⟩]
  else pure []

/-- The `if pattern and not re.match(pattern, value)` check (string
values only): `re.match` anchors at the start — a prefix match suffices.
`re.compile` failure propagates as `re.error`; a truthy non-string
pattern raises `TypeError` as in Python. -/
def patternCheck (fieldPath s : String) (pattern : Value) : Except PyErr (List ValidationError) :=
  if pyTruthy pattern then
    match pattern with
    | .str p => do
      let r ← Regex.compile p
      if reMatch r s then pure []
      else pure [⟨fieldPath, s!"Value does not match pattern: {p}", some (.str s)⟩]
    | _ => .error (.typeError "first argument must be string or compiled pattern")
  else pure []

/-- The `min_length is not None and len(value) < min_length` check. -/
def minLengthCheck (fieldPath s : String) (minLength : Value) :
    Except PyErr (List ValidationError) :=
  match minLength with
  | .null => pure []
  | m => do
    let b ← pyLtNum (s.length : Rat) m
    if b then
      let mv := pyStr m
      let lv := s.length
      pure [⟨fieldPath, s!"String must be at least {mv} characters, got {lv}", some (.str s)⟩]
    else pure []

/-- The `max_length is not None and len(value) > max_length` check. -/
def maxLengthCheck (fieldPath s : String) (maxLength : Value) :
    Except PyErr (List ValidationError) :=
  match maxLength with
  | .null => pure []
  | m => do
    let b ← pyGtNum (s.length : Rat) m
    if b then
      let mv := pyStr m
      let lv := s.length
      pure [⟨fieldPath, s!"String must be at most {mv} characters, got {lv}", some (.str s)⟩]
    else pure []

/-- The `isinstance(value, str)` block of `validate_field_value`: pattern,
then `minLength`, then `maxLength`. -/
def strCheckErrs (fieldPath : String) (value pattern minLength maxLength : Value) :
    Except PyErr (List ValidationError) :=
  match value with
  | .str s => do
    let patErrs ← patternCheck fieldPath s pattern
    let minErrs ← minLengthCheck fieldPath s minLength
    let maxErrs ← maxLengthCheck fieldPath s maxLength
    pure (patErrs ++ minErrs ++ maxErrs)
  | _ => pure []

/-- The `minimum is not None and value < minimum` check. -/
def minimumCheck (fieldPath : String) (value : Value) (q : Rat) (minimum : Value) :
    Except PyErr (List ValidationError) :=
  match minimum with
  | .null => pure []
  | m => do
    let b ← pyLtNum q m
    if b then
      let mv := pyStr m
      let vv := pyStr value
      pure [⟨fieldPath, s!"Value must be at least {mv}, got {vv}", some value⟩]
    else pure []

/-- The `maximum is not None and value > maximum` check. -/
def maximumCheck (fieldPath : String) (value : Value) (q : Rat) (maximum : Value) :
    Except PyErr (List ValidationError) :=
  match maximum with
  | .null => pure []
  | m => do
    let b ← pyGtNum q m
    if b then
      let mv := pyStr m
      let vv := pyStr value
      pure [⟨fieldPath, s!"Value must be at most {mv}, got {vv}", some value⟩]
    else pure []

/-- The `isinstance(value, (int, float))` block of `validate_field_value`:
inclusive `minimum`/`maximum` bounds (booleans participate as 1 and 0). -/
def numCheckErrs (fieldPath : String) (value minimum maximum : Value) :
    Except PyErr (List ValidationError) :=
  match value.toRat? with
  | some q => do
    let minErrs ← minimumCheck fieldPath value q minimum
    let maxErrs ← maximumCheck fieldPath value q maximum
    pure (minErrs ++ maxErrs)
  | none => pure []

/-- The `min_items is not None and len(arr) < min_items` check. -/
def minItemsCheck (fieldPath : String) (len : Nat) (minItems : Value) :
    Except PyErr (List ValidationError) :=
  match minItems with
  | .null => pure []
  | m => do
    let b ← pyLtNum (len : Rat) m
    if b then
      let mv := pyStr m
      pure [⟨fieldPath, s!"Array must have at least {mv} items, got {len}", none⟩]
    else pure []

/-- The `max_items is not None and len(arr) > max_items` check. -/
def maxItemsCheck (fieldPath : String) (len : Nat) (maxItems : Value) :
    Except PyErr (List ValidationError) :=
  match maxItems with
  | .null => pure []
  | m => do
    let b ← pyGtNum (len : Rat) m
    if b then
      let mv := pyStr m
      pure [⟨fieldPath, s!"Array must have at most {mv} items, got {len}", none⟩]
    else pure []

mutual
/-- `RequestValidator.validate_field_value`: type check, enum check,
string checks, numeric checks, then recursion for object/array kinds, all
non-short-circuiting; the first `schema.get` raises on a non-dict schema. -/
def validate_field_value (fieldPath : String) (value : Value) (schema : Value) :
    Except PyErr ValidationResult :=
  match schema with
  | .dict d => do
    let fieldType := (Value.lookup "type" d).getD (.str "string")
    let enumValues := (Value.lookup "enum" d).getD .null
    let pattern := (Value.lookup "pattern" d).getD .null
    let minLength := (Value.lookup "minLength" d).getD .null
    let maxLength := (Value.lookup "maxLength" d).getD .null
    let minimum := (Value.lookup "minimum" d).getD .null
    let maximum := (Value.lookup "maximum" d).getD .null
    let typeErrs := typeCheckErrs fieldPath value fieldType
    let enumErrs ← enumCheckErrs fieldPath value enumValues
    let strErrs ← strCheckErrs fieldPath value pattern minLength maxLength
    let numErrs ← numCheckErrs fieldPath value minimum maximum
    let recRes ←
      if valueIsStr fieldType "object" && value.isDictV then
        validate_object value schema fieldPath
      else if valueIsStr fieldType "array" && value.isListV then
        validate_array value schema fieldPath
      else pure ValidationResult.empty
    pure ⟨typeErrs ++ enumErrs ++ strErrs ++ numErrs ++ recRes.errors, recRes.warnings, []⟩
  | _ => .error (.attributeError (schema.typeName ++ " object has no attribute get"))
termination_by (sizeOf value, 1)

/-- `RequestValidator.validate_object`: non-dict objects short-circuit to
one error; required-set errors come first, then per-property results in
the object's insertion order (`additionalProperties` is read per
undeclared property in the source; the lookup is pure, so it is read once
here). -/
def validate_object (obj : Value) (schema : Value) (fieldPath : String) :
    Except PyErr ValidationResult :=
  match obj with
  | .dict entries =>
    match schema with
    | .dict d => do
      let properties := (Value.lookup "properties" d).getD (.dict [])
      let requiredFields ← pySet ((Value.lookup "required" d).getD (.list []))
      let missingErrs := (requiredFields.filter fun rf =>
          !(match rf with
            | .str k => (Value.lookup k entries).isSome
            | _ => false)).map fun rf =>
        (⟨fieldPath ++ "." ++ pyStr rf, "Required field is missing", none⟩ : ValidationError)
      let addl := (Value.lookup "additionalProperties" d).getD (.bool true)
      let propRes ← validate_object_props fieldPath entries properties addl
      pure ⟨missingErrs ++ propRes.errors, propRes.warnings, []⟩
    | _ => .error (.attributeError (schema.typeName ++ " object has no attribute get"))
  | _ =>
    pure ⟨[⟨fieldPath, "Expected object, got " ++ obj.typeName, none⟩], [], []⟩
termination_by (sizeOf obj, 0)

/-- The per-property loop of `validate_object`: declared properties
recurse through `validate_field_value`; undeclared ones follow the
additional-properties policy (`is False` → error, `is True`/default →
nothing, otherwise validate against the policy value). -/
def validate_object_props (fieldPath : String) (entries : List (String × Value))
    (properties addl : Value) : Except PyErr ValidationResult :=
  match entries with
  | [] => pure ValidationResult.empty
  | (pn, pv) :: rest => do
    let head ← do
      let isIn ← pyIn (.str pn) properties
      if isIn then do
        let ps ← pyGetItem properties (.str pn)
        validate_field_value (fieldPath ++ "." ++ pn) pv ps
      else
        match addl with
        | .bool false =>
          pure (⟨[⟨fieldPath ++ "." ++ pn, "Additional property not allowed", none⟩], [], []⟩ :
            ValidationResult)
        | .bool true => pure ValidationResult.empty
        | a => validate_field_value (fieldPath ++ "." ++ pn) pv a
    let tail ← validate_object_props fieldPath rest properties addl
    pure ⟨head.errors ++ tail.errors, head.warnings ++ tail.warnings, []⟩
termination_by (sizeOf entries, 0)

/-- `RequestValidator.validate_array`: non-list short-circuits to one
error; `minItems` and `maxItems` violations are independent errors; items
are validated when the items schema is truthy. -/
def validate_array (arr : Value) (schema : Value) (fieldPath : String) :
    Except PyErr ValidationResult :=
  match arr with
  | .list items =>
    match schema with
    | .dict d => do
      let minItems := (Value.lookup "minItems" d).getD .null
      let maxItems := (Value.lookup "maxItems" d).getD .null
      let minErrs ← minItemsCheck fieldPath items.length minItems
      let maxErrs ← maxItemsCheck fieldPath items.length maxItems
      let itemsSchema := (Value.lookup "items" d).getD (.dict [])
      let itemRes ←
        if pyTruthy itemsSchema then validate_array_items fieldPath 0 items itemsSchema
        else pure ValidationResult.empty
      pure ⟨minErrs ++ maxErrs ++ itemRes.errors, itemRes.warnings, []⟩
    | _ => .error (.attributeError (schema.typeName ++ " object has no attribute get"))
  | _ =>
    pure ⟨[⟨fieldPath, "Expected array, got " ++ arr.typeName, none⟩], [], []⟩
termination_by (sizeOf arr, 0)

/-- The `enumerate(arr)` items loop of `validate_array`. -/
def validate_array_items (fieldPath : String) (i : Nat) (items : List Value)
    (itemsSchema : Value) : Except PyErr ValidationResult :=
  match items with
  | [] => pure ValidationResult.empty
  | item :: rest => do
    let head ← validate_field_value s!"{fieldPath}[{i}]" item itemsSchema
    let tail ← validate_array_items fieldPath (i + 1) rest itemsSchema
    pure ⟨head.errors ++ tail.errors, head.warnings ++ tail.warnings, []⟩
termination_by (sizeOf items, 0)
end

/-- `RequestValidator.validate_body`: a missing body errs only when the
schema's `required` is truthy; a string body is JSON-parsed first (parse
failure ends body validation with one error); then dispatch on the
schema's `type` (default `"object"`). -/
def validate_body (bodySchema : Value) (body : Option Value) : Except PyErr ValidationResult :=
  match body with
  | none =>
    match bodySchema with
    | .dict d =>
      if pyTruthy ((Value.lookup "required" d).getD (.bool false)) then
        pure ⟨[⟨"body", "Request body is required", none⟩], [], []⟩
      else pure ValidationResult.empty
    | _ => .error (.attributeError (bodySchema.typeName ++ " object has no attribute get"))
  | some b0 => do
    let parsed ←
      match b0 with
      | .str s =>
        match jsonLoads s with
        | some v => pure (some v)
        | none => pure none
      | v => pure (some v)
    match parsed with
    | none => pure ⟨[⟨"body", "Request body must be valid JSON", none⟩], [], []⟩
    | some v =>
      match bodySchema with
      | .dict d =>
        match (Value.lookup "type" d).getD (.str "object") with
        | .str "object" => do
          let r ← validate_object v bodySchema "body"
          pure ⟨r.errors, r.warnings, []⟩
        | .str "array" => do
          let r ← validate_array v bodySchema "body"
          pure ⟨r.errors, r.warnings, []⟩
        | _ => do
          let r ← validate_field_value "body" v bodySchema
          pure ⟨r.errors, r.warnings, []⟩
      | _ => .error (.attributeError (bodySchema.typeName ++ " object has no attribute get"))

/-- The required-headers loop of `validate_headers` (case-insensitive
presence search). -/
def requiredHeaderErrs (headersSchema supplied : List (String × Value)) :
    Except PyErr (List ValidationError) :=
  match headersSchema with
  | [] => pure []
  | (name, hdef) :: rest => do
    let req ← py_dict_get hdef "required" (.bool false)
    let here :=
      if pyTruthy req ∧ ¬ supplied.any (fun kv => pyLower kv.1 = pyLower name) then
        [(⟨"headers." ++ name, "Required header is missing", none⟩ : ValidationError)]
      else []
    let tail ← requiredHeaderErrs rest supplied
    pure (here ++ tail)

/-- The supplied-headers loop of `validate_headers`: each supplied header
is matched case-insensitively to the first schema entry; matched values go
through `validate_field_value`, unmatched ones produce a warning. -/
def suppliedHeaderResults (headersSchema supplied : List (String × Value)) :
    Except PyErr ValidationResult :=
  match supplied with
  | [] => pure ValidationResult.empty
  | (hname, hvalue) :: rest => do
    let head ←
      match headersSchema.find? (fun kv => pyLower kv.1 = pyLower hname) with
      | some (sname, sdef) => validate_field_value ("headers." ++ sname) hvalue sdef
      | none => pure (⟨[], ["Unexpected header: " ++ hname], []⟩ : ValidationResult)
    let tail ← suppliedHeaderResults headersSchema rest
    pure ⟨head.errors ++ tail.errors, head.warnings ++ tail.warnings, []⟩

/-- `RequestValidator.validate_headers`. -/
def validate_headers (headersSchema supplied : List (String × Value)) :
    Except PyErr ValidationResult := do
  let reqErrs ← requiredHeaderErrs headersSchema supplied
  let valRes ← suppliedHeaderResults headersSchema supplied
  pure ⟨reqErrs ++ valRes.errors, valRes.warnings, []⟩

/-- The required-parameters loop of `validate_query_params`
(case-sensitive membership). -/
def requiredQueryErrs (querySchema supplied : List (String × Value)) :
    Except PyErr (List ValidationError) :=
  match querySchema with
  | [] => pure []
  | (name, pdef) :: rest => do
    let req ← py_dict_get pdef "required" (.bool false)
    let here :=
      if pyTruthy req ∧ (Value.lookup name supplied).isNone then
        [(⟨"query." ++ name, "Required query parameter is missing", none⟩ : ValidationError)]
      else []
    let tail ← requiredQueryErrs rest supplied
    pure (here ++ tail)

/-- The supplied-parameters loop of `validate_query_params`. -/
def suppliedQueryResults (querySchema supplied : List (String × Value)) :
    Except PyErr ValidationResult :=
  match supplied with
  | [] => pure ValidationResult.empty
  | (pname, pvalue) :: rest => do
    let head ←
      match Value.lookup pname querySchema with
      | some pdef => validate_field_value ("query." ++ pname) pvalue pdef
      | none => pure (⟨[], ["Unexpected query parameter: " ++ pname], []⟩ : ValidationResult)
    let tail ← suppliedQueryResults querySchema rest
    pure ⟨head.errors ++ tail.errors, head.warnings ++ tail.warnings, []⟩

/-- `RequestValidator.validate_query_params`. -/
def validate_query_params (querySchema supplied : List (String × Value)) :
    Except PyErr ValidationResult := do
  let reqErrs ← requiredQueryErrs querySchema supplied
  let valRes ← suppliedQueryResults querySchema supplied
  pure ⟨reqErrs ++ valRes.errors, valRes.warnings, []⟩

/-- Python `str.startswith`, modelled over character lists (so that it
evaluates by kernel reduction). -/
def strStartsWith (s p : String) : Bool := p.data.isPrefixOf s.data

/-- Python `str.endswith`, modelled over character lists. -/
def strEndsWith (s p : String) : Bool := p.data.reverse.isPrefixOf s.data.reverse

/-- The per-segment loop of `validate_path_parameters` (equal lengths
guaranteed by the caller): `{name}` placeholders must be non-empty,
other segments must match exactly. -/
def pathSegErrs (i : Nat) : List (String × String) → List ValidationError
  | [] => []
  | (sp, ap) :: rest =>
    (if strStartsWith sp "\x7b" ∧ strEndsWith sp "\x7d" then
      (if ap = "" then
        [⟨"path." ++ (sp.drop 1).dropRight 1, "Path parameter cannot be empty", none⟩]
       else [])
     else if sp ≠ ap then
      [⟨"path", s!"Path segment mismatch at position {i}: expected \x27{sp}\x27, got \x27{ap}\x27", none⟩]
     else []) ++ pathSegErrs (i + 1) rest

/-- `RequestValidator.validate_path_parameters`: both paths are stripped
of leading/trailing slashes and split on `/`; a segment-count mismatch is
a single error on field `path` and ends the check. -/
def validate_path_parameters (schemaPath actualPath : String) : ValidationResult :=
  let schemaParts := pySplitOn '/' (pyStripSlashes schemaPath).data
  let actualParts := pySplitOn '/' (pyStripSlashes actualPath).data
  if schemaParts.length ≠ actualParts.length then
    ⟨[⟨"path", s!"Path structure mismatch: expected {schemaPath}, got {actualPath}", none⟩], [], []⟩
  else
    ⟨pathSegErrs 0 (schemaParts.zip actualParts), [], []⟩

/-- `SchemaEndpoint` (a pydantic model in the source; field validation on
construction is not modelled beyond the shapes the loader actually
builds). -/
structure SchemaEndpoint where
  method : String
  path : String
  summary : Option String := none
  description : Option String := none
  headers : List (String × Value) := []
  query_params : List (String × Value) := []
  body_schema : Option Value := none
  auth_schema : Option Value := none
  responses : Value := .dict []

/-- The header part of `_add_suggestions`: optional declared headers with
a truthy default that were not supplied (exact-name membership). -/
def headerSuggestions (headersSchema : List (String × Value))
    (supplied : Option (List (String × Value))) : Except PyErr (List String) :=
  match headersSchema with
  | [] => pure []
  | (name, hdef) :: rest => do
    let req ← py_dict_get hdef "required" (.bool false)
    let dflt ← py_dict_get hdef "default" .null
    let absent :=
      match supplied with
      | none => true
      | some hs => hs.isEmpty || (Value.lookup name hs).isNone
    let here :=
      if !pyTruthy req && pyTruthy dflt && absent then
        let dv := pyStr dflt
        [s!"Consider adding header \x27{name}\x27 with default value: {dv}"]
      else []
    let tail ← headerSuggestions rest supplied
    pure (here ++ tail)

/-- The query-parameter part of `_add_suggestions`. -/
def querySuggestions (querySchema : List (String × Value))
    (supplied : Option (List (String × Value))) : Except PyErr (List String) :=
  match querySchema with
  | [] => pure []
  | (name, pdef) :: rest => do
    let req ← py_dict_get pdef "required" (.bool false)
    let dflt ← py_dict_get pdef "default" .null
    let absent :=
      match supplied with
      | none => true
      | some qs => qs.isEmpty || (Value.lookup name qs).isNone
    let here :=
      if !pyTruthy req && pyTruthy dflt && absent then
        let dv := pyStr dflt
        [s!"Consider adding query parameter \x27{name}\x27 with default value: {dv}"]
      else []
    let tail ← querySuggestions rest supplied
    pure (here ++ tail)

/-- Truthiness of an optional supplied body (`not body` tests). -/
def bodyTruthyB : Option Value → Bool
  | some b => pyTruthy b
  | none => false

/-- The example-body part of `_add_suggestions`: when a truthy body
schema carries a truthy `example` and no truthy body was supplied, emit
the dumped example. -/
def bodyExampleSuggestion (endpoint : SchemaEndpoint) (body : Option Value) :
    Except PyErr (List String) :=
  match endpoint.body_schema with
  | some schema =>
    if pyTruthy schema && !bodyTruthyB body then do
      let ex ← py_dict_get schema "example" .null
      if pyTruthy ex then
        let dumped := jsonDumps 0 ex
        pure [s!"Example request body: {dumped}"]
      else pure []
    else pure []
  | none => pure []

/-- `RequestValidator._add_suggestions`: header/query defaults, then the
example-body suggestion. -/
def add_suggestions (endpoint : SchemaEndpoint)
    (headers queryParams : Option (List (String × Value))) (body : Option Value) :
    Except PyErr (List String) := do
  let hs ← headerSuggestions endpoint.headers headers
  let qs ← querySuggestions endpoint.query_params queryParams
  let bs ← bodyExampleSuggestion endpoint body
  pure (hs ++ qs ++ bs)

/-- The method check of `validate_request`: a supplied (truthy) method
must match the endpoint's declared method after upcasing. -/
def methodCheckErrs (endpointMethod : String) (method : Option String) :
    List ValidationError :=
  match method with
  | some m =>
    if m ≠ "" ∧ pyUpper m ≠ endpointMethod then
      let mu := pyUpper m
      [⟨"method", s!"Expected {endpointMethod}, got {mu}", none⟩]
    else []
  | none => []

/-- The header step of `validate_request` (skipped for an empty/falsy
header schema). -/
def headersStep (endpoint : SchemaEndpoint) (headers : Option (List (String × Value))) :
    Except PyErr ValidationResult :=
  if !endpoint.headers.isEmpty then validate_headers endpoint.headers (headers.getD [])
  else pure ValidationResult.empty

/-- The query step of `validate_request`. -/
def queryStep (endpoint : SchemaEndpoint) (queryParams : Option (List (String × Value))) :
    Except PyErr ValidationResult :=
  if !endpoint.query_params.isEmpty then
    validate_query_params endpoint.query_params (queryParams.getD [])
  else pure ValidationResult.empty

/-- The body step of `validate_request`: validate against a truthy body
schema, otherwise warn when an unexpected (truthy) body was supplied. -/
def bodyStep (endpoint : SchemaEndpoint) (body : Option Value) :
    Except PyErr ValidationResult :=
  match endpoint.body_schema with
  | some bs =>
    if pyTruthy bs then validate_body bs body
    else pure (if bodyTruthyB body then
      (⟨[], ["Request body provided but not expected by schema"], []⟩ : ValidationResult)
      else ValidationResult.empty)
  | none =>
    pure (if bodyTruthyB body then
      (⟨[], ["Request body provided but not expected by schema"], []⟩ : ValidationResult)
      else ValidationResult.empty)

/-- The path step of `validate_request` (only errors are merged from it). -/
def pathStep (endpoint : SchemaEndpoint) (path : Option String) : ValidationResult :=
  match path with
  | some p => if p ≠ "" then validate_path_parameters endpoint.path p else ValidationResult.empty
  | none => ValidationResult.empty

/-- `RequestValidator.validate_request`: the top-level validation —
method, headers, query parameters, body, path parameters (errors only),
derived validity, then suggestions. -/
def validate_request (endpoint : SchemaEndpoint)
    (headers queryParams : Option (List (String × Value)))
    (body : Option Value) (method : Option String) (path : Option String) :
    Except PyErr ValidationResult := do
  let methodErrs := methodCheckErrs endpoint.method method
  let headerRes ← headersStep endpoint headers
  let queryRes ← queryStep endpoint queryParams
  let bodyRes ← bodyStep endpoint body
  let pathRes := pathStep endpoint path
  let suggs ← add_suggestions endpoint headers queryParams body
  pure ⟨methodErrs ++ headerRes.errors ++ queryRes.errors ++ bodyRes.errors ++ pathRes.errors,
        headerRes.warnings ++ queryRes.warnings ++ bodyRes.warnings, suggs⟩

/-! ### `schema_loader.py` -/

/-- `APISchema` (pydantic model). -/
structure APISchema where
  title : String := "API"
  version : String := "1.0.0"
  base_url : String := ""
  endpoints : List SchemaEndpoint := []
  components : Value := .dict []
  security_schemes : Value := .dict []

/-- pydantic validation of a `str` field (v2 semantics: a non-string is a
`ValidationError`, not coerced). -/
def pydanticStr (v : Value) : Except PyErr String :=
  match v with
  | .str s => pure s
  | _ => .error (.validationError "input should be a valid string")

/-- pydantic validation of an `Optional[str]` field. -/
def pydanticOptStr (v : Value) : Except PyErr (Option String) :=
  match v with
  | .null => pure none
  | .str s => pure (some s)
  | _ => .error (.validationError "input should be a valid string")

/-- A value found by key lookup is structurally smaller than the entry
list it came from (used for the termination of `$ref` resolution). -/
theorem sizeOf_lookup_lt (k : String) :
    ∀ (d : List (String × Value)) (v : Value), Value.lookup k d = some v → sizeOf v < sizeOf d := by
  intro d
  induction d with
  | nil => intro v h; simp [Value.lookup] at h
  | cons kv rest ih =>
    intro v h
    obtain ⟨k', w⟩ := kv
    simp only [Value.lookup] at h
    by_cases hk : k' = k
    · simp [hk] at h
      subst h
      simp
      omega
    · simp [hk] at h
      have := ih v h
      simp
      omega

mutual
/-- `SchemaLoader._resolve_schema_ref`: a `$ref` into
`#/components/schemas/` is replaced by the named component **verbatim**
(the early `return` skips the properties recursion); otherwise, when a
`properties` key is present, each property value is resolved recursively
and the dict is copied with the resolved properties. -/
def resolve_schema_ref (schema components : Value) : Except PyErr Value :=
  match schema with
  | .dict d =>
    match Value.lookup "$ref" d with
    | some refPath =>
      match refPath with
      | .str r =>
        if strStartsWith r "#/components/schemas/" then do
          let schemaName := (pySplitOn '/' r.data).getLastD ""
          let schemas ← py_dict_get components "schemas" (.dict [])
          py_dict_get schemas schemaName (.dict [])
        else resolveRefProps d components
      | _ => .error (.attributeError (refPath.typeName ++ " object has no attribute startswith"))
    | none => resolveRefProps d components
  | .str s =>
    -- `"$ref" in schema` over a string is substring containment;
    -- indexing a string with a string then raises
    if listContains "$ref".data s.data then .error (.typeError "string indices must be integers")
    else if listContains "properties".data s.data then
      .error (.typeError "string indices must be integers")
    else pure (.str s)
  | .list xs =>
    if xs.any (fun x => pyEq (.str "$ref") x) then
      .error (.typeError "list indices must be integers")
    else if xs.any (fun x => pyEq (.str "properties") x) then
      .error (.typeError "list indices must be integers")
    else pure (.list xs)
  | _ => .error (.typeError ("argument of type " ++ schema.typeName ++ " is not iterable"))
termination_by (sizeOf schema, 2)

/-- The `"properties" in schema` part of `_resolve_schema_ref`. -/
def resolveRefProps (d : List (String × Value)) (components : Value) : Except PyErr Value :=
  match hp : Value.lookup "properties" d with
  | some props =>
    match props with
    | .dict pd => do
      let resolved ← resolveRefPropsList pd components
      pure (.dict (Value.setItem "properties" (.dict resolved) d))
    | _ => .error (.attributeError (props.typeName ++ " object has no attribute items"))
  | none => pure (.dict d)
termination_by (sizeOf d, 1)
decreasing_by
  simp_wf
  have := sizeOf_lookup_lt "properties" d _ hp
  simp at this
  omega

/-- The per-property resolution loop of `_resolve_schema_ref`. -/
def resolveRefPropsList (pd : List (String × Value)) (components : Value) :
    Except PyErr (List (String × Value)) :=
  match pd with
  | [] => pure []
  | (k, v) :: rest => do
    let rv ← resolve_schema_ref v components
    let rrest ← resolveRefPropsList rest components
    pure ((k, rv) :: rrest)
termination_by (sizeOf pd, 0)
end

/-- The parameters loop of `_parse_endpoint`, carrying the header and
query maps being built (routing on `in`; path-located parameters are not
stored).  Parameter names become dict keys; the model's dict keys are
strings, so a non-string `name` is reported as a model-level error (in
Python any hashable would be accepted as a key; no claim exercises
that). -/
def parseParams : List Value → List (String × Value) → List (String × Value) →
    Except PyErr (List (String × Value) × List (String × Value))
  | [], hdrs, qps => pure (hdrs, qps)
  | p :: rest, hdrs, qps =>
    match p with
    | .dict pd => do
      let paramName := (Value.lookup "name" pd).getD .null
      let paramIn := (Value.lookup "in" pd).getD .null
      let paramSchema := (Value.lookup "schema" pd).getD (.dict [])
      let paramRequired := (Value.lookup "required" pd).getD (.bool false)
      let paramDescription := (Value.lookup "description" pd).getD (.str "")
      match paramSchema with
      | .dict ps =>
        let pType := (Value.lookup "type" ps).getD (.str "string")
        let pDefault := (Value.lookup "default" ps).getD .null
        let pEnum := (Value.lookup "enum" ps).getD .null
        let exOuter := (Value.lookup "example" pd).getD .null
        let pExample := if pyTruthy exOuter then exOuter else (Value.lookup "example" ps).getD .null
        let paramDef := Value.dict
          [("type", pType), ("required", paramRequired), ("description", paramDescription),
           ("default", pDefault), ("enum", pEnum), ("example", pExample)]
        if valueIsStr paramIn "header" then
          match paramName with
          | .str n => parseParams rest (Value.setItem n paramDef hdrs) qps
          | _ => .error (.typeError "modelled dict keys are strings")
        else if valueIsStr paramIn "query" then
          match paramName with
          | .str n => parseParams rest hdrs (Value.setItem n paramDef qps)
          | _ => .error (.typeError "modelled dict keys are strings")
        else parseParams rest hdrs qps
      | other => .error (.attributeError (other.typeName ++ " object has no attribute get"))
    | _ => .error (.attributeError (p.typeName ++ " object has no attribute get"))

/-- `param in parameters` iteration: Python iterates lists, strings
(character by character) and dicts (keys); anything else raises. -/
def pyIterate (v : Value) : Except PyErr (List Value) :=
  match v with
  | .list xs => pure xs
  | .str s => pure (s.data.map fun c => .str (String.mk [c]))
  | .dict d => pure (d.map fun kv => .str kv.1)
  | _ => .error (.typeError (v.typeName ++ " object is not iterable"))

/-- The `requestBody` content-type preference scan of `_parse_endpoint`:
first of `application/json`, `application/x-www-form-urlencoded`,
`multipart/form-data` present in `content`. -/
def findContentType (content : Value) : List String → Except PyErr (Option String)
  | [] => pure none
  | ct :: rest => do
    let b ← pyIn (.str ct) content
    if b then pure (some ct) else findContentType content rest

/-- `SchemaLoader._parse_endpoint`. -/
def parse_endpoint (path method : String) (methodData components : Value) :
    Except PyErr SchemaEndpoint :=
  match methodData with
  | .dict md => do
    -- SchemaEndpoint(...) construction: pydantic checks Optional[str] fields
    let summary ← pydanticOptStr ((Value.lookup "summary" md).getD .null)
    let description ← pydanticOptStr ((Value.lookup "description" md).getD .null)
    let parameters := (Value.lookup "parameters" md).getD (.list [])
    let paramList ← pyIterate parameters
    let (hdrs, qps) ← parseParams paramList [] []
    let requestBody := (Value.lookup "requestBody" md).getD (.dict [])
    let bodySchema ←
      if pyTruthy requestBody then do
        let content ← py_dict_get requestBody "content" (.dict [])
        let firstCT ← findContentType content
          ["application/json", "application/x-www-form-urlencoded", "multipart/form-data"]
        match firstCT with
        | some ct => do
          let entry ← pyGetItem content (.str ct)
          let schema ← py_dict_get entry "schema" (.dict [])
          let resolved ← resolve_schema_ref schema components
          pure (some resolved)
        | none => pure none
      else pure none
    let security := (Value.lookup "security" md).getD (.list [])
    let auth ←
      if pyTruthy security then do
        let firstSec ← pyGetItem security (.int 0)
        match firstSec with
        | .dict fs =>
          match fs with
          | [] => pure none
          | (schemeName, _) :: _ =>
            pure (some (Value.dict [("scheme", .str schemeName), ("type", .str "bearer")]))
        | _ => .error (.attributeError (firstSec.typeName ++ " object has no attribute keys"))
      else pure none
    let responses := (Value.lookup "responses" md).getD (.dict [])
    pure { method := method, path := path, summary := summary, description := description,
           headers := hdrs, query_params := qps, body_schema := bodySchema,
           auth_schema := auth, responses := responses }
  | _ => .error (.attributeError (methodData.typeName ++ " object has no attribute get"))

/-- The `paths` HTTP method names recognised by the loader. -/
def httpMethodNames : List String :=
  ["get", "post", "put", "patch", "delete", "head", "options"]

/-- The inner (per-method) loop of `_parse_openapi_schema`. -/
def parseMethodsList (path : String) (methods : List (String × Value)) (components : Value) :
    Except PyErr (List SchemaEndpoint) :=
  match methods with
  | [] => pure []
  | (method, methodData) :: rest => do
    if pyLower method ∈ httpMethodNames then do
      let ep ← parse_endpoint path (pyUpper method) methodData components
      let tail ← parseMethodsList path rest components
      pure (ep :: tail)
    else parseMethodsList path rest components

/-- The outer (per-path) loop of `_parse_openapi_schema`. -/
def parsePathsList (paths : List (String × Value)) (components : Value) :
    Except PyErr (List SchemaEndpoint) :=
  match paths with
  | [] => pure []
  | (path, pathData) :: rest =>
    match pathData with
    | .dict methods => do
      let eps ← parseMethodsList path methods components
      let tail ← parsePathsList rest components
      pure (eps ++ tail)
    | _ => .error (.attributeError (pathData.typeName ++ " object has no attribute items"))

/-- `SchemaLoader._parse_openapi_schema`: info fallbacks, components and
security schemes, then every recognised method of every path in document
order.  There is no per-operation exception handler: an error from
`_parse_endpoint` propagates out of the whole parse. -/
def parse_openapi_schema (schemaData : Value) (baseUrl : String) : Except PyErr APISchema :=
  match schemaData with
  | .dict doc => do
    let info := (Value.lookup "info" doc).getD (.dict [])
    let titleV ← py_dict_get info "title" (.str "API")
    let versionV ← py_dict_get info "version" (.str "1.0.0")
    let components := (Value.lookup "components" doc).getD (.dict [])
    let securitySchemes ← py_dict_get components "securitySchemes" (.dict [])
    -- APISchema(...) construction (pydantic: str fields must be strings)
    let title ← pydanticStr titleV
    let version ← pydanticStr versionV
    let paths := (Value.lookup "paths" doc).getD (.dict [])
    let endpoints ←
      match paths with
      | .dict pd => parsePathsList pd components
      | _ => .error (.attributeError (paths.typeName ++ " object has no attribute items"))
    pure { title := title, version := version, base_url := baseUrl, endpoints := endpoints,
           components := components, security_schemes := securitySchemes }
  | _ => .error (.attributeError (schemaData.typeName ++ " object has no attribute get"))

/-! ### `field_prompter.py` — the prompt-ordering rule

Only the ordering logic is embedded: the interactive prompting itself is
terminal I/O (a collaborator concern).  All three sites sort with
`sorted(items, key=lambda x: (<not required>, x[0]))`.  CPython's `sorted`
is stable, but the keys here are injective whenever the field names are
distinct (always true for dict items), so any correct sort computes the
same list; `List.insertionSort` is used. -/

/-- The lexicographic order on sort keys `(not required, name)` that
Python's tuple comparison gives. -/
def promptKeyLE (x y : Bool × String) : Prop :=
  x.1 < y.1 ∨ (x.1 = y.1 ∧ x.2 ≤ y.2)

instance : DecidableRel promptKeyLE := fun x y => by
  unfold promptKeyLE
  infer_instance

instance promptKeyLE_total : IsTotal (Bool × String) promptKeyLE := by
  constructor
  intro a b
  unfold promptKeyLE
  rcases le_total a.2 b.2 with h | h <;> cases ha : a.1 <;> cases hb : b.1 <;> simp [ha, hb, h]

instance promptKeyLE_trans : IsTrans (Bool × String) promptKeyLE := by
  constructor
  intro a b c hab hbc
  unfold promptKeyLE at *
  rcases hab with h1 | ⟨e1, n1⟩ <;> rcases hbc with h2 | ⟨e2, n2⟩
  · exact Or.inl (lt_trans h1 h2)
  · exact Or.inl (e2 ▸ h1)
  · exact Or.inl (e1 ▸ h2)
  · exact Or.inr ⟨e1.trans e2, le_trans n1 n2⟩

/-- `sorted(l, key=key)` for an injective-key decoration (see section
comment on stability). -/
def pySorted (key : (String × Value) → Bool × String) (l : List (String × Value)) :
    List (String × Value) :=
  List.insertionSort (fun a b => promptKeyLE (key a) (key b)) l

/-- `x[1].get("required", False)` as used inside the sort key; a non-dict
definition would make Python's `sorted` raise `AttributeError` mid-sort —
none of the schemas in scope (always dict-valued) do, and the claim
theorem restricts to dict-valued definitions. -/
def requiredOf (v : Value) : Value :=
  match v with
  | .dict d => (Value.lookup "required" d).getD (.bool false)
  | _ => .null

/-- The sort key of `prompt_for_headers` / `prompt_for_query_params`:
`(not x[1].get("required", False), x[0])`. -/
def headerSortKey (kv : String × Value) : Bool × String :=
  (!pyTruthy (requiredOf kv.2), kv.1)

/-- `FieldPrompter.prompt_for_headers` lines 38-41: the prompt order of
header fields. -/
def sorted_headers (headersSchema : List (String × Value)) : List (String × Value) :=
  pySorted headerSortKey headersSchema

/-- `FieldPrompter.prompt_for_query_params` line 116-117. -/
def sorted_params (querySchema : List (String × Value)) : List (String × Value) :=
  pySorted headerSortKey querySchema

/-- The sort key of `_prompt_for_object`:
`(x[0] not in required_fields, x[0])` against the schema's required set. -/
def propSortKey (requiredFields : List Value) (kv : String × Value) : Bool × String :=
  (!(requiredFields.any fun x => pyEq (.str kv.1) x), kv.1)

/-- `FieldPrompter._prompt_for_object` line 242-243. -/
def sorted_props (properties : List (String × Value)) (requiredFields : List Value) :
    List (String × Value) :=
  pySorted (propSortKey requiredFields) properties

/-! ### Well-formed field schemas

`validate_request` can raise (`re.error`, `TypeError`, `AttributeError`)
when a field schema carries an invalid or ill-typed constraint.  The
following decidable predicate is a sufficient condition on a field-schema
value ruling out every raising operation reachable from field validation,
for every possible runtime value. -/

/-- The `pattern` entry, when truthy, must be a string that compiles. -/
def wfPattern (p : Value) : Bool :=
  !pyTruthy p ||
    (match p with
     | .str s => (Regex.compile s).isOk
     | _ => false)

/-- A numeric bound (`minLength`/`maxLength`/`minimum`/`maximum`/
`minItems`/`maxItems`) must be absent, `None`, or a number. -/
def wfBound (v : Value) : Bool :=
  match v with
  | .null => true
  | v => v.toRat?.isSome

/-- The `enum` entry, when truthy, must be a list (membership in a list
never raises; truthy strings/dicts/numbers can raise on `in`). -/
def wfEnum (e : Value) : Bool :=
  !pyTruthy e ||
    (match e with
     | .list _ => true
     | _ => false)

/-- The `required` entry must be absent or an iterable of hashables
(`set(...)` raises otherwise; an explicit `None` raises too). -/
def wfRequired : Option Value → Bool
  | none => true
  | some (.list xs) => xs.all pyHashable
  | some (.str _) => true
  | some (.dict _) => true
  | some _ => false

/-- The non-recursive constraints of a well-formed field schema dict. -/
def wfFlat (d : List (String × Value)) : Bool :=
  wfPattern ((Value.lookup "pattern" d).getD .null) &&
  wfBound ((Value.lookup "minLength" d).getD .null) &&
  wfBound ((Value.lookup "maxLength" d).getD .null) &&
  wfBound ((Value.lookup "minimum" d).getD .null) &&
  wfBound ((Value.lookup "maximum" d).getD .null) &&
  wfBound ((Value.lookup "minItems" d).getD .null) &&
  wfBound ((Value.lookup "maxItems" d).getD .null) &&
  wfEnum ((Value.lookup "enum" d).getD .null) &&
  wfRequired (Value.lookup "required" d)

mutual
/-- A well-formed field schema: a dict whose flat constraints are
well-formed and whose `properties`, `additionalProperties` and `items`
entries (when present) are respectively a dict of well-formed schemas, a
boolean or a well-formed schema, and (when truthy) a well-formed
schema. -/
def wfFieldSchema (v : Value) : Bool :=
  match v with
  | .dict d => wfFlat d && wfSpecialEntries d
  | _ => false
termination_by (sizeOf v, 2)

/-- Scan of the recursive entries of a field schema dict. -/
def wfSpecialEntries (d : List (String × Value)) : Bool :=
  match d with
  | [] => true
  | (k, v) :: rest =>
    (if k = "properties" then
       match v with
       | .dict pd => wfFieldSchemaList pd
       | _ => false
     else if k = "additionalProperties" then
       match v with
       | .bool _ => true
       | w => wfFieldSchema w
     else if k = "items" then
       !pyTruthy v || wfFieldSchema v
     else true) &&
    wfSpecialEntries rest
termination_by (sizeOf d, 1)

/-- Pointwise well-formedness over the values of a `properties` dict. -/
def wfFieldSchemaList (pd : List (String × Value)) : Bool :=
  match pd with
  | [] => true
  | (_, v) :: rest => wfFieldSchema v && wfFieldSchemaList rest
termination_by (sizeOf pd, 0)
end

/-- Shape of a `properties` value the per-property loop can consume
without raising, with well-formed property schemas. -/
def wfProperties (p : Value) : Bool :=
  match p with
  | .dict pd => wfFieldSchemaList pd
  | _ => false

/-- Shape of an `additionalProperties` value the per-property loop can
consume without raising. -/
def wfAddl (a : Value) : Bool :=
  match a with
  | .bool _ => true
  | a => wfFieldSchema a

/-- A well-formed optional body schema: absent, falsy, or well-formed. -/
def wfBodySchemaOpt : Option Value → Bool
  | some bs => !pyTruthy bs || wfFieldSchema bs
  | none => true

/-- A well-formed endpoint: every header and query-parameter definition is
a well-formed field schema, and the body schema, when truthy, is one. -/
def wfEndpoint (e : SchemaEndpoint) : Bool :=
  (e.headers.all fun kv => wfFieldSchema kv.2) &&
  (e.query_params.all fun kv => wfFieldSchema kv.2) &&
  wfBodySchemaOpt e.body_schema

/-- Sequencing preserves success when both stages succeed. -/
theorem isOk_bind {α β : Type} {e : Except PyErr α} {f : α → Except PyErr β}
    (h : e.isOk = true) (hf : ∀ a, e = .ok a → (f a).isOk = true) :
    (e >>= f).isOk = true := by
  cases e with
  | ok a => exact hf a rfl
  | error err => simp [Except.isOk, Except.toBool] at h

/-- A returned value is a success. -/
theorem isOk_pure {α : Type} (a : α) : (pure a : Except PyErr α).isOk = true := rfl

/-- A two-way return is a success. -/
theorem isOk_ite_pure {α : Type} (c : Prop) [Decidable c] (x y : α) :
    (if c then (pure x : Except PyErr α) else pure y).isOk = true := by
  split <;> rfl

/-- The enum check cannot raise on a well-formed `enum` entry. -/
theorem enumCheckErrs_isOk (p : String) (v e : Value) (h : wfEnum e = true) :
    (enumCheckErrs p v e).isOk = true := by
  unfold enumCheckErrs
  by_cases ht : pyTruthy e = true
  · rw [if_pos ht]
    have he : ∃ xs, e = Value.list xs := by
      cases e <;> simp_all [wfEnum, pyTruthy]
    obtain ⟨xs, rfl⟩ := he
    apply isOk_bind (show (pyIn v (.list xs)).isOk = true from rfl)
    intro a _
    split <;> rfl
  · rw [if_neg ht]
    rfl

/-- A numeric comparison cannot raise against a numeric bound. -/
theorem pyLtNum_isOk (x : Rat) (m : Value) (h : (Value.toRat? m).isSome = true) :
    (pyLtNum x m).isOk = true := by
  unfold pyLtNum
  cases hm : Value.toRat? m with
  | some y => rfl
  | none => rw [hm] at h; simp at h

/-- A numeric comparison cannot raise against a numeric bound. -/
theorem pyGtNum_isOk (x : Rat) (m : Value) (h : (Value.toRat? m).isSome = true) :
    (pyGtNum x m).isOk = true := by
  unfold pyGtNum
  cases hm : Value.toRat? m with
  | some y => rfl
  | none => rw [hm] at h; simp at h

/-- The pattern check cannot raise on a well-formed `pattern` entry. -/
theorem patternCheck_isOk (p s : String) (pat : Value) (h : wfPattern pat = true) :
    (patternCheck p s pat).isOk = true := by
  unfold patternCheck
  by_cases ht : pyTruthy pat = true
  · rw [if_pos ht]
    have he : ∃ ps, pat = Value.str ps ∧ (Regex.compile ps).isOk = true := by
      cases pat <;> simp_all [wfPattern, pyTruthy]
    obtain ⟨ps, rfl, hok⟩ := he
    apply isOk_bind hok
    intro r _
    split <;> rfl
  · rw [if_neg ht]
    rfl

/-- The `minLength` check cannot raise on a numeric-or-absent bound. -/
theorem minLengthCheck_isOk (p s : String) (m : Value) (h : wfBound m = true) :
    (minLengthCheck p s m).isOk = true := by
  cases m <;> simp_all [wfBound, Value.toRat?] <;>
    simp only [minLengthCheck] <;>
    first
    | rfl
    | (apply isOk_bind (pyLtNum_isOk _ _ (by simp [Value.toRat?]))
       intro b _
       split <;> rfl)

/-- The `maxLength` check cannot raise on a numeric-or-absent bound. -/
theorem maxLengthCheck_isOk (p s : String) (m : Value) (h : wfBound m = true) :
    (maxLengthCheck p s m).isOk = true := by
  cases m <;> simp_all [wfBound, Value.toRat?] <;>
    simp only [maxLengthCheck] <;>
    first
    | rfl
    | (apply isOk_bind (pyGtNum_isOk _ _ (by simp [Value.toRat?]))
       intro b _
       split <;> rfl)

/-- The string checks cannot raise on a well-formed schema. -/
theorem strCheckErrs_isOk (p : String) (v pat mn mx : Value)
    (h1 : wfPattern pat = true) (h2 : wfBound mn = true) (h3 : wfBound mx = true) :
    (strCheckErrs p v pat mn mx).isOk = true := by
  cases v <;> try rfl
  rename_i s
  simp only [strCheckErrs]
  apply isOk_bind (patternCheck_isOk p s pat h1)
  intro a _
  apply isOk_bind (minLengthCheck_isOk p s mn h2)
  intro b _
  apply isOk_bind (maxLengthCheck_isOk p s mx h3)
  intro c _
  exact isOk_pure _

/-- The `minimum` check cannot raise on a numeric-or-absent bound. -/
theorem minimumCheck_isOk (p : String) (v : Value) (q : Rat) (m : Value)
    (h : wfBound m = true) : (minimumCheck p v q m).isOk = true := by
  cases m <;> simp_all [wfBound, Value.toRat?] <;>
    simp only [minimumCheck] <;>
    first
    | rfl
    | (apply isOk_bind (pyLtNum_isOk _ _ (by simp [Value.toRat?]))
       intro b _
       split <;> rfl)

/-- The `maximum` check cannot raise on a numeric-or-absent bound. -/
theorem maximumCheck_isOk (p : String) (v : Value) (q : Rat) (m : Value)
    (h : wfBound m = true) : (maximumCheck p v q m).isOk = true := by
  cases m <;> simp_all [wfBound, Value.toRat?] <;>
    simp only [maximumCheck] <;>
    first
    | rfl
    | (apply isOk_bind (pyGtNum_isOk _ _ (by simp [Value.toRat?]))
       intro b _
       split <;> rfl)

/-- The numeric checks cannot raise on a well-formed schema. -/
theorem numCheckErrs_isOk (p : String) (v mn mx : Value)
    (h2 : wfBound mn = true) (h3 : wfBound mx = true) :
    (numCheckErrs p v mn mx).isOk = true := by
  simp only [numCheckErrs]
  cases hq : v.toRat? with
  | none => rfl
  | some q =>
    apply isOk_bind (minimumCheck_isOk p v q mn h2)
    intro a _
    apply isOk_bind (maximumCheck_isOk p v q mx h3)
    intro b _
    exact isOk_pure _

/-- The `minItems` check cannot raise on a numeric-or-absent bound. -/
theorem minItemsCheck_isOk (p : String) (n : Nat) (m : Value) (h : wfBound m = true) :
    (minItemsCheck p n m).isOk = true := by
  cases m <;> simp_all [wfBound, Value.toRat?] <;>
    simp only [minItemsCheck] <;>
    first
    | rfl
    | (apply isOk_bind (pyLtNum_isOk _ _ (by simp [Value.toRat?]))
       intro b _
       split <;> rfl)

/-- The `maxItems` check cannot raise on a numeric-or-absent bound. -/
theorem maxItemsCheck_isOk (p : String) (n : Nat) (m : Value) (h : wfBound m = true) :
    (maxItemsCheck p n m).isOk = true := by
  cases m <;> simp_all [wfBound, Value.toRat?] <;>
    simp only [maxItemsCheck] <;>
    first
    | rfl
    | (apply isOk_bind (pyGtNum_isOk _ _ (by simp [Value.toRat?]))
       intro b _
       split <;> rfl)

/-- The `set(schema.get("required", []))` step cannot raise on a
well-formed `required` entry. -/
theorem pySet_isOk (r : Option Value) (h : wfRequired r = true) :
    (pySet ((r.getD (.list [])))).isOk = true := by
  cases r with
  | none => rfl
  | some v =>
    cases v <;>
      simp_all [wfRequired, pySet, pure, Except.pure, Except.isOk, Except.toBool]

/-- Unpack `wfFlat` into its nine constraints. -/
theorem wfFlat_parts {d : List (String × Value)} (h : wfFlat d = true) :
    wfPattern ((Value.lookup "pattern" d).getD .null) = true ∧
    wfBound ((Value.lookup "minLength" d).getD .null) = true ∧
    wfBound ((Value.lookup "maxLength" d).getD .null) = true ∧
    wfBound ((Value.lookup "minimum" d).getD .null) = true ∧
    wfBound ((Value.lookup "maximum" d).getD .null) = true ∧
    wfBound ((Value.lookup "minItems" d).getD .null) = true ∧
    wfBound ((Value.lookup "maxItems" d).getD .null) = true ∧
    wfEnum ((Value.lookup "enum" d).getD .null) = true ∧
    wfRequired (Value.lookup "required" d) = true := by
  simp only [wfFlat, Bool.and_eq_true] at h
  obtain ⟨⟨⟨⟨⟨⟨⟨⟨h1, h2⟩, h3⟩, h4⟩, h5⟩, h6⟩, h7⟩, h8⟩, h9⟩ := h
  exact ⟨h1, h2, h3, h4, h5, h6, h7, h8, h9⟩

/-- Unpack the entry scan at a looked-up key. -/
theorem wfSpecialEntries_lookup {d : List (String × Value)}
    (h : wfSpecialEntries d = true) {k : String} {v : Value}
    (hk : Value.lookup k d = some v) :
    (k = "properties" → ∃ pd, v = .dict pd ∧ wfFieldSchemaList pd = true) ∧
    (k = "additionalProperties" → (∃ b, v = .bool b) ∨ wfFieldSchema v = true) ∧
    (k = "items" → pyTruthy v = false ∨ wfFieldSchema v = true) := by
  induction d with
  | nil => simp [Value.lookup] at hk
  | cons kv rest ih =>
    obtain ⟨k', w⟩ := kv
    unfold wfSpecialEntries at h
    rw [Bool.and_eq_true] at h
    simp only [Value.lookup] at hk
    by_cases hkk : k' = k
    · rw [if_pos hkk] at hk
      cases hk
      subst hkk
      obtain ⟨h1, -⟩ := h
      refine ⟨?_, ?_, ?_⟩
      · intro hkp
        rw [if_pos hkp] at h1
        cases v <;> simp_all
      · intro hka
        have hne : k' ≠ "properties" := by rw [hka]; decide
        rw [if_neg hne, if_pos hka] at h1
        cases v <;> simp_all
      · intro hki
        have hne1 : k' ≠ "properties" := by rw [hki]; decide
        have hne2 : k' ≠ "additionalProperties" := by rw [hki]; decide
        rw [if_neg hne1, if_neg hne2, if_pos hki] at h1
        cases hb : pyTruthy v with
        | false => exact Or.inl rfl
        | true =>
          refine Or.inr ?_
          rw [hb] at h1
          simpa using h1
    · rw [if_neg hkk] at hk
      exact ih h.2 hk

/-- Unpack `wfFieldSchema` at a dict into its constraints. -/
theorem wfFieldSchema_parts {d : List (String × Value)}
    (h : wfFieldSchema (.dict d) = true) :
    wfFlat d = true ∧
    (∀ p, Value.lookup "properties" d = some p →
      ∃ pd, p = .dict pd ∧ wfFieldSchemaList pd = true) ∧
    (∀ a, Value.lookup "additionalProperties" d = some a →
      (∃ b, a = .bool b) ∨ wfFieldSchema a = true) ∧
    (∀ it, Value.lookup "items" d = some it →
      pyTruthy it = false ∨ wfFieldSchema it = true) := by
  simp only [wfFieldSchema, Bool.and_eq_true] at h
  refine ⟨h.1, ?_, ?_, ?_⟩
  · intro p hpp
    exact (wfSpecialEntries_lookup h.2 hpp).1 rfl
  · intro a hpa
    exact (wfSpecialEntries_lookup h.2 hpa).2.1 rfl
  · intro it hpi
    exact (wfSpecialEntries_lookup h.2 hpi).2.2 rfl

/-- Well-formedness of the looked-up property schema. -/
theorem wfFieldSchemaList_lookup {pd : List (String × Value)}
    (h : wfFieldSchemaList pd = true) {k : String} {v : Value}
    (hk : Value.lookup k pd = some v) : wfFieldSchema v = true := by
  induction pd with
  | nil => simp [Value.lookup] at hk
  | cons kv rest ih =>
    obtain ⟨k', w⟩ := kv
    simp only [wfFieldSchemaList, Bool.and_eq_true] at h
    simp only [Value.lookup] at hk
    by_cases hkk : k' = k
    · rw [if_pos hkk] at hk
      cases hk
      exact h.1
    · rw [if_neg hkk] at hk
      exact ih h.2 hk

/-- The `properties` value the object loop receives is well-formed. -/
theorem wfProperties_of_schema {d : List (String × Value)}
    (h : wfFieldSchema (.dict d) = true) :
    wfProperties ((Value.lookup "properties" d).getD (.dict [])) = true := by
  obtain ⟨-, hp, -, -⟩ := wfFieldSchema_parts h
  cases hpp : Value.lookup "properties" d with
  | none => simp [wfProperties, wfFieldSchemaList]
  | some p =>
    obtain ⟨pd, rfl, hwf⟩ := hp p hpp
    simpa [wfProperties] using hwf

/-- The `additionalProperties` value the object loop receives is
well-formed. -/
theorem wfAddl_of_schema {d : List (String × Value)}
    (h : wfFieldSchema (.dict d) = true) :
    wfAddl ((Value.lookup "additionalProperties" d).getD (.bool true)) = true := by
  obtain ⟨-, -, ha, -⟩ := wfFieldSchema_parts h
  cases hpa : Value.lookup "additionalProperties" d with
  | none => rfl
  | some a =>
    rcases ha a hpa with ⟨b, rfl⟩ | hwf
    · rfl
    · cases a <;> simp_all [wfAddl]

/-- Validation is total (no Python exception) on well-formed field
schemas, for every runtime value: the master strong-induction lemma
covering the mutually recursive validators. -/
theorem validators_total (n : Nat) :
    (∀ value : Value, sizeOf value ≤ n → ∀ path schema, wfFieldSchema schema = true →
      (validate_field_value path value schema).isOk = true) ∧
    (∀ obj : Value, sizeOf obj ≤ n → ∀ schema path, wfFieldSchema schema = true →
      (validate_object obj schema path).isOk = true) ∧
    (∀ entries : List (String × Value), sizeOf entries ≤ n →
      ∀ path properties addl, wfProperties properties = true → wfAddl addl = true →
      (validate_object_props path entries properties addl).isOk = true) ∧
    (∀ items : List Value, sizeOf items ≤ n → ∀ path i itemsSchema,
      wfFieldSchema itemsSchema = true →
      (validate_array_items path i items itemsSchema).isOk = true) ∧
    (∀ arr : Value, sizeOf arr ≤ n → ∀ schema path, wfFieldSchema schema = true →
      (validate_array arr schema path).isOk = true) := by
  induction n using Nat.strong_induction_on with
  | _ n IH =>
  have Hprops : ∀ entries : List (String × Value), sizeOf entries ≤ n →
      ∀ path properties addl, wfProperties properties = true → wfAddl addl = true →
      (validate_object_props path entries properties addl).isOk = true := by
    intro entries hsz path properties addl hprop haddl
    cases entries with
    | nil => simp only [validate_object_props]; rfl
    | cons hd rest =>
      obtain ⟨pn, pv⟩ := hd
      have hpv : sizeOf pv < n := by
        have : sizeOf pv < sizeOf ((pn, pv) :: rest) := by simp; omega
        omega
      have hrest : sizeOf rest < n := by
        have : sizeOf rest < sizeOf ((pn, pv) :: rest) := by simp
        omega
      obtain ⟨pd, rfl⟩ : ∃ pd, properties = Value.dict pd := by
        cases properties <;> first | exact ⟨_, rfl⟩ | simp [wfProperties] at hprop
      unfold validate_object_props
      apply isOk_bind (show (pyIn (.str pn) (.dict pd)).isOk = true from rfl)
      intro isIn hIn
      by_cases hb : isIn = true
      · rw [if_pos hb]
        apply isOk_bind
        · have hsome : (Value.lookup pn pd).isSome = true := by
            simp only [pyIn] at hIn
            cases hIn
            exact hb
          obtain ⟨v, hv⟩ := Option.isSome_iff_exists.mp hsome
          simp [pyGetItem, hv, Except.isOk, Except.toBool, pure, Except.pure]
        · intro ps hps
          have hwfps : wfFieldSchema ps = true := by
            simp only [pyGetItem] at hps
            cases hlk : Value.lookup pn pd with
            | none => rw [hlk] at hps; cases hps
            | some v =>
              rw [hlk] at hps
              cases hps
              exact wfFieldSchemaList_lookup (by simpa [wfProperties] using hprop) hlk
          apply isOk_bind ((IH (sizeOf pv) hpv).1 pv le_rfl _ _ hwfps)
          intro head _
          apply isOk_bind
            ((IH (sizeOf rest) hrest).2.2.1 rest le_rfl path (.dict pd) addl hprop haddl)
          intro tail _
          exact isOk_pure _
      · rw [if_neg hb]
        cases addl with
        | bool b =>
          cases b <;>
            (apply isOk_bind (isOk_pure _)
             intro head _
             apply isOk_bind
               ((IH (sizeOf rest) hrest).2.2.1 rest le_rfl path (.dict pd) _ hprop haddl)
             intro tail _
             exact isOk_pure _)
        | dict xs =>
          apply isOk_bind ((IH (sizeOf pv) hpv).1 pv le_rfl _ _ (by simpa [wfAddl] using haddl))
          intro head _
          apply isOk_bind
            ((IH (sizeOf rest) hrest).2.2.1 rest le_rfl path (.dict pd) _ hprop haddl)
          intro tail _
          exact isOk_pure _
        | null => exact absurd haddl (by simp [wfAddl, wfFieldSchema])
        | int m => exact absurd haddl (by simp [wfAddl, wfFieldSchema])
        | float q => exact absurd haddl (by simp [wfAddl, wfFieldSchema])
        | str s => exact absurd haddl (by simp [wfAddl, wfFieldSchema])
        | list xs => exact absurd haddl (by simp [wfAddl, wfFieldSchema])
  have Hitems : ∀ items : List Value, sizeOf items ≤ n → ∀ path i itemsSchema,
      wfFieldSchema itemsSchema = true →
      (validate_array_items path i items itemsSchema).isOk = true := by
    intro items hsz path i itemsSchema hwf
    cases items with
    | nil => simp only [validate_array_items]; rfl
    | cons item rest =>
      have hitem : sizeOf item < n := by
        have : sizeOf item < sizeOf (item :: rest) := by simp; omega
        omega
      have hrest : sizeOf rest < n := by
        have : sizeOf rest < sizeOf (item :: rest) := by simp
        omega
      simp only [validate_array_items]
      apply isOk_bind ((IH (sizeOf item) hitem).1 item le_rfl _ _ hwf)
      intro head _
      apply isOk_bind ((IH (sizeOf rest) hrest).2.2.2.1 rest le_rfl path (i + 1) _ hwf)
      intro tail _
      exact isOk_pure _
  have Hobj : ∀ obj : Value, sizeOf obj ≤ n → ∀ schema path, wfFieldSchema schema = true →
      (validate_object obj schema path).isOk = true := by
    intro obj hsz schema path hwf
    obtain ⟨d, rfl⟩ : ∃ d, schema = Value.dict d := by
      cases schema <;> first | exact ⟨_, rfl⟩ | simp [wfFieldSchema] at hwf
    cases obj <;> try (simp only [validate_object]; rfl)
    rename_i entries
    have hent : sizeOf entries < n := by
      have : sizeOf entries < sizeOf (Value.dict entries) := by simp
      omega
    simp only [validate_object]
    obtain ⟨hflat, -, -, -⟩ := wfFieldSchema_parts hwf
    obtain ⟨-, -, -, -, -, -, -, -, hreq⟩ := wfFlat_parts hflat
    apply isOk_bind (pySet_isOk _ hreq)
    intro reqF _
    apply isOk_bind
      ((IH (sizeOf entries) hent).2.2.1 entries le_rfl _ _ _
        (wfProperties_of_schema hwf) (wfAddl_of_schema hwf))
    intro propRes _
    exact isOk_pure _
  have Harr : ∀ arr : Value, sizeOf arr ≤ n → ∀ schema path, wfFieldSchema schema = true →
      (validate_array arr schema path).isOk = true := by
    intro arr hsz schema path hwf
    obtain ⟨d, rfl⟩ : ∃ d, schema = Value.dict d := by
      cases schema <;> first | exact ⟨_, rfl⟩ | simp [wfFieldSchema] at hwf
    cases arr <;> try (simp only [validate_array]; rfl)
    rename_i items
    have hits : sizeOf items < n := by
      have : sizeOf items < sizeOf (Value.list items) := by simp
      omega
    simp only [validate_array]
    obtain ⟨hflat, -, -, hitems⟩ := wfFieldSchema_parts hwf
    obtain ⟨-, -, -, -, -, hminI, hmaxI, -, -⟩ := wfFlat_parts hflat
    apply isOk_bind (minItemsCheck_isOk _ _ _ hminI)
    intro minErrs _
    apply isOk_bind (maxItemsCheck_isOk _ _ _ hmaxI)
    intro maxErrs _
    by_cases hti : pyTruthy ((Value.lookup "items" d).getD (.dict [])) = true
    · rw [if_pos hti]
      have hwfit : wfFieldSchema ((Value.lookup "items" d).getD (.dict [])) = true := by
        cases hpi : Value.lookup "items" d with
        | none => rw [hpi] at hti; exact absurd hti (by simp [pyTruthy])
        | some it =>
          rw [hpi] at hti
          rcases hitems it hpi with hfalse | hwf
          · simp only [Option.getD] at hti
            exact absurd hti (by simp [hfalse])
          · simpa using hwf
      apply isOk_bind ((IH (sizeOf items) hits).2.2.2.1 items le_rfl _ 0 _ hwfit)
      intro itemRes _
      exact isOk_pure _
    · rw [if_neg hti]
      rfl
  have Hvfv : ∀ value : Value, sizeOf value ≤ n → ∀ path schema,
      wfFieldSchema schema = true →
      (validate_field_value path value schema).isOk = true := by
    intro value hsz path schema hwf
    obtain ⟨d, rfl⟩ : ∃ d, schema = Value.dict d := by
      cases schema <;> first | exact ⟨_, rfl⟩ | simp [wfFieldSchema] at hwf
    simp only [validate_field_value]
    obtain ⟨hflat, -, -, -⟩ := wfFieldSchema_parts hwf
    obtain ⟨hpat, hminL, hmaxL, hmin, hmax, -, -, henum, -⟩ := wfFlat_parts hflat
    apply isOk_bind (enumCheckErrs_isOk _ _ _ henum)
    intro enumErrs _
    apply isOk_bind (strCheckErrs_isOk _ _ _ _ _ hpat hminL hmaxL)
    intro strErrs _
    apply isOk_bind (numCheckErrs_isOk _ _ _ _ hmin hmax)
    intro numErrs _
    by_cases h1 : (valueIsStr ((Value.lookup "type" d).getD (.str "string")) "object"
        && value.isDictV) = true
    · rw [if_pos h1]
      apply isOk_bind (Hobj value hsz _ path hwf)
      intro recRes _
      exact isOk_pure _
    · rw [if_neg h1]
      by_cases h2 : (valueIsStr ((Value.lookup "type" d).getD (.str "string")) "array"
          && value.isListV) = true
      · rw [if_pos h2]
        apply isOk_bind (Harr value hsz _ path hwf)
        intro recRes _
        exact isOk_pure _
      · rw [if_neg h2]
        rfl
  exact ⟨Hvfv, Hobj, Hprops, Hitems, Harr⟩

/-- Field validation never raises on a well-formed field schema. -/
theorem validate_field_value_total (path : String) (value schema : Value)
    (h : wfFieldSchema schema = true) :
    (validate_field_value path value schema).isOk = true :=
  (validators_total (sizeOf value)).1 value le_rfl path schema h

/-- Object validation never raises on a well-formed field schema. -/
theorem validate_object_total (obj schema : Value) (path : String)
    (h : wfFieldSchema schema = true) :
    (validate_object obj schema path).isOk = true :=
  (validators_total (sizeOf obj)).2.1 obj le_rfl schema path h

/-- Array validation never raises on a well-formed field schema. -/
theorem validate_array_total (arr schema : Value) (path : String)
    (h : wfFieldSchema schema = true) :
    (validate_array arr schema path).isOk = true :=
  (validators_total (sizeOf arr)).2.2.2.2 arr le_rfl schema path h

/-- Body validation never raises on a well-formed body schema. -/
theorem validate_body_total (bs : Value) (body : Option Value)
    (h : wfFieldSchema bs = true) : (validate_body bs body).isOk = true := by
  obtain ⟨d, rfl⟩ : ∃ d, bs = Value.dict d := by
    cases bs <;> first | exact ⟨_, rfl⟩ | simp [wfFieldSchema] at h
  have hdisp : ∀ v : Value,
      ((match (Value.lookup "type" d).getD (Value.str "object") with
        | Value.str "object" => do
          let r ← validate_object v (Value.dict d) "body"
          pure (⟨r.errors, r.warnings, []⟩ : ValidationResult)
        | Value.str "array" => do
          let r ← validate_array v (Value.dict d) "body"
          pure (⟨r.errors, r.warnings, []⟩ : ValidationResult)
        | _ => do
          let r ← validate_field_value "body" v (Value.dict d)
          pure (⟨r.errors, r.warnings, []⟩ : ValidationResult) :
        Except PyErr ValidationResult)).isOk = true := by
    intro v
    split
    · apply isOk_bind (validate_object_total v (.dict d) "body" h)
      intro r _
      exact isOk_pure _
    · apply isOk_bind (validate_array_total v (.dict d) "body" h)
      intro r _
      exact isOk_pure _
    · apply isOk_bind (validate_field_value_total "body" v (.dict d) h)
      intro r _
      exact isOk_pure _
  cases body with
  | none =>
    unfold validate_body
    exact isOk_ite_pure _ _ _
  | some b0 =>
    unfold validate_body
    cases b0 <;> try exact hdisp _
    rename_i s
    cases hjl : jsonLoads s with
    | none => simp only [hjl]; rfl
    | some v => simp only [hjl]; exact hdisp v

/-- The required-headers loop never raises when every definition is a
well-formed field schema. -/
theorem requiredHeaderErrs_total (hs supplied : List (String × Value))
    (h : hs.all (fun kv => wfFieldSchema kv.2) = true) :
    (requiredHeaderErrs hs supplied).isOk = true := by
  induction hs with
  | nil => rfl
  | cons kv rest ih =>
    obtain ⟨name, hdef⟩ := kv
    simp only [List.all_cons, Bool.and_eq_true] at h
    obtain ⟨dd, hdd⟩ : ∃ dd, hdef = Value.dict dd := by
      cases hdef <;> first | exact ⟨_, rfl⟩ | simp [wfFieldSchema] at h
    subst hdd
    unfold requiredHeaderErrs
    apply isOk_bind (show (py_dict_get (.dict dd) "required" (.bool false)).isOk = true from rfl)
    intro req _
    apply isOk_bind (ih h.2)
    intro tail _
    exact isOk_pure _

/-- The supplied-headers loop never raises when every definition is a
well-formed field schema. -/
theorem suppliedHeaderResults_total (hs supplied : List (String × Value))
    (h : hs.all (fun kv => wfFieldSchema kv.2) = true) :
    (suppliedHeaderResults hs supplied).isOk = true := by
  induction supplied with
  | nil => rfl
  | cons kv rest ih =>
    obtain ⟨hname, hvalue⟩ := kv
    unfold suppliedHeaderResults
    cases hf : hs.find? (fun kv => pyLower kv.1 = pyLower hname) with
    | none =>
      apply isOk_bind (isOk_pure _)
      intro head _
      apply isOk_bind ih
      intro tail _
      exact isOk_pure _
    | some sd =>
      obtain ⟨sname, sdef⟩ := sd
      have hmem := List.mem_of_find?_eq_some hf
      have hwf := List.all_eq_true.mp h _ hmem
      apply isOk_bind (validate_field_value_total _ hvalue sdef hwf)
      intro head _
      apply isOk_bind ih
      intro tail _
      exact isOk_pure _

/-- `validate_headers` never raises on a well-formed header schema. -/
theorem validate_headers_total (hs supplied : List (String × Value))
    (h : hs.all (fun kv => wfFieldSchema kv.2) = true) :
    (validate_headers hs supplied).isOk = true := by
  unfold validate_headers
  apply isOk_bind (requiredHeaderErrs_total hs supplied h)
  intro reqErrs _
  apply isOk_bind (suppliedHeaderResults_total hs supplied h)
  intro valRes _
  exact isOk_pure _

/-- The required-parameters loop never raises when every definition is a
well-formed field schema. -/
theorem requiredQueryErrs_total (qs supplied : List (String × Value))
    (h : qs.all (fun kv => wfFieldSchema kv.2) = true) :
    (requiredQueryErrs qs supplied).isOk = true := by
  induction qs with
  | nil => rfl
  | cons kv rest ih =>
    obtain ⟨name, pdef⟩ := kv
    simp only [List.all_cons, Bool.and_eq_true] at h
    obtain ⟨dd, hdd⟩ : ∃ dd, pdef = Value.dict dd := by
      cases pdef <;> first | exact ⟨_, rfl⟩ | simp [wfFieldSchema] at h
    subst hdd
    unfold requiredQueryErrs
    apply isOk_bind (show (py_dict_get (.dict dd) "required" (.bool false)).isOk = true from rfl)
    intro req _
    apply isOk_bind (ih h.2)
    intro tail _
    exact isOk_pure _

/-- The supplied-parameters loop never raises when every definition is a
well-formed field schema. -/
theorem suppliedQueryResults_total (qs supplied : List (String × Value))
    (h : qs.all (fun kv => wfFieldSchema kv.2) = true) :
    (suppliedQueryResults qs supplied).isOk = true := by
  induction supplied with
  | nil => rfl
  | cons kv rest ih =>
    obtain ⟨pname, pvalue⟩ := kv
    unfold suppliedQueryResults
    cases hf : Value.lookup pname qs with
    | none =>
      apply isOk_bind (isOk_pure _)
      intro head _
      apply isOk_bind ih
      intro tail _
      exact isOk_pure _
    | some pdef =>
      have hmem : (pname, pdef) ∈ qs := by
        clear ih h
        induction qs with
        | nil => simp [Value.lookup] at hf
        | cons kv2 rest2 ih2 =>
          obtain ⟨k2, v2⟩ := kv2
          simp only [Value.lookup] at hf
          by_cases hk2 : k2 = pname
          · rw [if_pos hk2] at hf
            cases hf
            subst hk2
            exact List.mem_cons_self _ _
          · rw [if_neg hk2] at hf
            exact List.mem_cons_of_mem _ (ih2 hf)
      have hwf := List.all_eq_true.mp h _ hmem
      apply isOk_bind (validate_field_value_total _ pvalue pdef hwf)
      intro head _
      apply isOk_bind ih
      intro tail _
      exact isOk_pure _

/-- `validate_query_params` never raises on a well-formed query schema. -/
theorem validate_query_params_total (qs supplied : List (String × Value))
    (h : qs.all (fun kv => wfFieldSchema kv.2) = true) :
    (validate_query_params qs supplied).isOk = true := by
  unfold validate_query_params
  apply isOk_bind (requiredQueryErrs_total qs supplied h)
  intro reqErrs _
  apply isOk_bind (suppliedQueryResults_total qs supplied h)
  intro valRes _
  exact isOk_pure _

/-- The header-suggestions loop never raises on well-formed definitions. -/
theorem headerSuggestions_total (hs : List (String × Value))
    (supplied : Option (List (String × Value)))
    (h : hs.all (fun kv => wfFieldSchema kv.2) = true) :
    (headerSuggestions hs supplied).isOk = true := by
  induction hs with
  | nil => rfl
  | cons kv rest ih =>
    obtain ⟨name, hdef⟩ := kv
    simp only [List.all_cons, Bool.and_eq_true] at h
    obtain ⟨dd, hdd⟩ : ∃ dd, hdef = Value.dict dd := by
      cases hdef <;> first | exact ⟨_, rfl⟩ | simp [wfFieldSchema] at h
    subst hdd
    unfold headerSuggestions
    apply isOk_bind (show (py_dict_get (.dict dd) "required" (.bool false)).isOk = true from rfl)
    intro req _
    apply isOk_bind (show (py_dict_get (.dict dd) "default" .null).isOk = true from rfl)
    intro dflt _
    apply isOk_bind (ih h.2)
    intro tail _
    exact isOk_pure _

/-- The query-suggestions loop never raises on well-formed definitions. -/
theorem querySuggestions_total (qs : List (String × Value))
    (supplied : Option (List (String × Value)))
    (h : qs.all (fun kv => wfFieldSchema kv.2) = true) :
    (querySuggestions qs supplied).isOk = true := by
  induction qs with
  | nil => rfl
  | cons kv rest ih =>
    obtain ⟨name, pdef⟩ := kv
    simp only [List.all_cons, Bool.and_eq_true] at h
    obtain ⟨dd, hdd⟩ : ∃ dd, pdef = Value.dict dd := by
      cases pdef <;> first | exact ⟨_, rfl⟩ | simp [wfFieldSchema] at h
    subst hdd
    unfold querySuggestions
    apply isOk_bind (show (py_dict_get (.dict dd) "required" (.bool false)).isOk = true from rfl)
    intro req _
    apply isOk_bind (show (py_dict_get (.dict dd) "default" .null).isOk = true from rfl)
    intro dflt _
    apply isOk_bind (ih h.2)
    intro tail _
    exact isOk_pure _

/-- The body-example suggestion never raises on a well-formed endpoint. -/
theorem bodyExampleSuggestion_total (e : SchemaEndpoint) (body : Option Value)
    (hb : wfBodySchemaOpt e.body_schema = true) :
    (bodyExampleSuggestion e body).isOk = true := by
  unfold bodyExampleSuggestion
  cases hbs : e.body_schema with
  | none => rfl
  | some bs =>
    rw [hbs] at hb
    simp only [hbs]
    by_cases hc : (pyTruthy bs && !bodyTruthyB body) = true
    · rw [if_pos hc]
      obtain ⟨dd, rfl⟩ : ∃ dd, bs = Value.dict dd := by
        have htr : pyTruthy bs = true := by
          have h2 := hc
          rw [Bool.and_eq_true] at h2
          exact h2.1
        have hb2 : (!pyTruthy bs || wfFieldSchema bs) = true := hb
        rw [htr] at hb2
        simp only [Bool.not_true, Bool.false_or] at hb2
        cases bs <;> first | exact ⟨_, rfl⟩ | simp [wfFieldSchema] at hb2
      apply isOk_bind (show (py_dict_get (.dict dd) "example" .null).isOk = true from rfl)
      intro ex _
      split <;> rfl
    · rw [if_neg hc]
      rfl

/-- `_add_suggestions` never raises on a well-formed endpoint. -/
theorem add_suggestions_total (e : SchemaEndpoint)
    (headers queryParams : Option (List (String × Value))) (body : Option Value)
    (h : wfEndpoint e = true) :
    (add_suggestions e headers queryParams body).isOk = true := by
  simp only [wfEndpoint, Bool.and_eq_true] at h
  obtain ⟨⟨hh, hq⟩, hb⟩ := h
  unfold add_suggestions
  apply isOk_bind (headerSuggestions_total e.headers headers hh)
  intro hsug _
  apply isOk_bind (querySuggestions_total e.query_params queryParams hq)
  intro qsug _
  apply isOk_bind (bodyExampleSuggestion_total e body hb)
  intro bsug _
  exact isOk_pure _

/-- The header step never raises on a well-formed endpoint schema. -/
theorem headersStep_total (e : SchemaEndpoint) (headers : Option (List (String × Value)))
    (hh : e.headers.all (fun kv => wfFieldSchema kv.2) = true) :
    (headersStep e headers).isOk = true := by
  unfold headersStep
  split
  · exact validate_headers_total _ _ hh
  · rfl

/-- The query step never raises on a well-formed endpoint schema. -/
theorem queryStep_total (e : SchemaEndpoint) (queryParams : Option (List (String × Value)))
    (hq : e.query_params.all (fun kv => wfFieldSchema kv.2) = true) :
    (queryStep e queryParams).isOk = true := by
  unfold queryStep
  split
  · exact validate_query_params_total _ _ hq
  · rfl

/-- The body step never raises on a well-formed endpoint schema. -/
theorem bodyStep_total (e : SchemaEndpoint) (body : Option Value)
    (hb : wfBodySchemaOpt e.body_schema = true) :
    (bodyStep e body).isOk = true := by
  unfold bodyStep
  cases hbs : e.body_schema with
  | none => rfl
  | some bs =>
    rw [hbs] at hb
    simp only [hbs]
    by_cases hc : pyTruthy bs = true
    · rw [if_pos hc]
      have hb2 : (!pyTruthy bs || wfFieldSchema bs) = true := hb
      rw [hc] at hb2
      simp only [Bool.not_true, Bool.false_or] at hb2
      exact validate_body_total bs body hb2
    · rw [if_neg hc]
      rfl

/-- `validate_request` never raises on a well-formed endpoint: the
totality half of the spec's purity contract, for any combination of
supplied headers, query parameters, body, method and path. -/
theorem validate_request_total (e : SchemaEndpoint)
    (headers queryParams : Option (List (String × Value))) (body : Option Value)
    (method path : Option String) (h : wfEndpoint e = true) :
    (validate_request e headers queryParams body method path).isOk = true := by
  have hparts := h
  simp only [wfEndpoint, Bool.and_eq_true] at hparts
  obtain ⟨⟨hh, hq⟩, hb⟩ := hparts
  unfold validate_request
  apply isOk_bind (headersStep_total e headers hh)
  intro headerRes _
  apply isOk_bind (queryStep_total e queryParams hq)
  intro queryRes _
  apply isOk_bind (bodyStep_total e body hb)
  intro bodyRes _
  apply isOk_bind (add_suggestions_total e headers queryParams body h)
  intro suggs _
  exact isOk_pure _



/-! ### The claims -/

/-- C1 (counterexample): the pattern check does NOT require a full match.
For the string-kind schema with pattern `ab` and value `abc`, the pattern
compiles, a proper prefix (`ab`) matches while the full string does not
(`re.fullmatch` would fail), and yet `validate_field_value` records no
error — because the source uses `re.match`, which only anchors at the
start. -/
theorem C1_counterexample :
    Regex.compile "ab" = .ok (.cat (.chr 'a') (.cat (.chr 'b') .eps)) ∧
    reMatch (.cat (.chr 'a') (.cat (.chr 'b') .eps)) "abc" = true ∧
    reFullmatch (.cat (.chr 'a') (.cat (.chr 'b') .eps)) "abc" = false ∧
    validate_field_value "f" (.str "abc")
      (.dict [("type", .str "string"), ("pattern", .str "ab")]) = .ok ⟨[], [], []⟩ := by
  refine ⟨rfl, by decide, by decide, ?_⟩
  simp +decide [validate_field_value, Value.lookup, typeCheckErrs, enumCheckErrs, strCheckErrs,
    patternCheck, minLengthCheck, maxLengthCheck, numCheckErrs, pyTruthy, Value.toRat?,
    Regex.compile, parseRegexAlt, parseRegexCat, parseRegexRep, parseRegexAtom,
    valueIsStr, Value.isDictV, Value.isListV, ValidationResult.empty, pyIn,
    pure, Except.pure, bind, Except.bind]

/-- C1 (amended): for a string-kind schema carrying a (non-empty,
compiling) pattern and a supplied string value, `validate_field_value`
records a pattern error exactly when the regex does not match a prefix of
the value anchored at position 0 (Python `re.match` semantics), not a
full match. -/
theorem C1_pattern_uses_prefix_match (path p s : String) (r : Regex)
    (hp : p ≠ "") (hc : Regex.compile p = .ok r) :
    validate_field_value path (.str s)
        (.dict [("type", .str "string"), ("pattern", .str p)]) =
      .ok ⟨(if reMatch r s then []
            else [⟨path, s!"Value does not match pattern: {p}", some (.str s)⟩]), [], []⟩ := by
  cases hm : reMatch r s <;>
    simp [validate_field_value, Value.lookup, typeCheckErrs, enumCheckErrs, strCheckErrs,
      patternCheck, minLengthCheck, maxLengthCheck, numCheckErrs, pyTruthy, Value.toRat?,
      hp, hc, hm, valueIsStr, Value.isDictV, Value.isListV, ValidationResult.empty,
      pure, Except.pure, bind, Except.bind]

/-- C1 (witness): the amended theorem applied at pattern `ab`, value
`ab`. -/
theorem C1_pattern_uses_prefix_match_witness :
    validate_field_value "f" (.str "ab")
        (.dict [("type", .str "string"), ("pattern", .str "ab")]) = .ok ⟨[], [], []⟩ := by
  have h := C1_pattern_uses_prefix_match "f" "ab" "ab"
    (.cat (.chr 'a') (.cat (.chr 'b') .eps)) (by decide) rfl
  have hm : reMatch (.cat (.chr 'a') (.cat (.chr 'b') .eps)) "ab" = true := by decide
  rw [h]
  simp [hm]

/-- C3 (counterexample): matching template `/users/{id}` against the
supplied path `/users/` yields one error on field `path` (a segment-count
mismatch after the trailing slash is stripped), NOT on `path.id` as the
claim states. -/
theorem C3_counterexample :
    (validate_path_parameters "/users/{id}" "/users/").errors.map
      ValidationError.field = ["path"] := by
  simp +decide [validate_path_parameters, pySplitOn, pyStripSlashes, pathSegErrs,
    strStartsWith, strEndsWith]

/-- C3 (amended): `/users/{id}` against `/users/42` yields no path
errors; against `/users` exactly one error on field `path`; against
`/users/` also exactly one error on field `path` (the trailing slash is
stripped before splitting, so this is a segment-count mismatch, not an
empty-placeholder error); an empty-placeholder error at `path.id` arises
only for an interior empty segment, e.g. `/users//posts` against
`/users/{id}/posts`. -/
theorem C3_path_matching :
    (validate_path_parameters "/users/{id}" "/users/42").errors = [] ∧
    (validate_path_parameters "/users/{id}" "/users").errors.map
      ValidationError.field = ["path"] ∧
    (validate_path_parameters "/users/{id}" "/users/").errors.map
      ValidationError.field = ["path"] ∧
    (validate_path_parameters "/users/{id}/posts" "/users//posts").errors.map
      ValidationError.field = ["path.id"] := by
  refine ⟨?_, ?_, ?_, ?_⟩ <;>
    simp +decide [validate_path_parameters, pySplitOn, pyStripSlashes, pathSegErrs,
      strStartsWith, strEndsWith]

/-- C5 (counterexample): the whole number `5.0` (a Python float) IS
rejected by the integer type check — `isinstance(value, int)` is false
for floats, whole-valued or not — so "type error iff the value is not a
whole number" fails. -/
theorem C5_counterexample :
    (5 : Rat).den = 1 ∧
    validate_field_value "f" (.float 5) (.dict [("type", .str "integer")]) =
      .ok ⟨[⟨"f", "Expected integer, got float", some (.float 5)⟩], [], []⟩ := by
  refine ⟨by decide, ?_⟩
  simp +decide [validate_field_value, Value.lookup, typeCheckErrs, enumCheckErrs,
    strCheckErrs, numCheckErrs, minimumCheck, maximumCheck, pyLtNum, pyGtNum,
    pyTruthy, Value.toRat?, isInstInt, Value.typeName,
    valueIsStr, Value.isDictV, Value.isListV, ValidationResult.empty,
    pure, Except.pure, bind, Except.bind]

/-- C5 (amended): against a bare integer-kind schema, the type check
records an error exactly when the value is not a Python `int` — booleans
count as integers (`bool` subclasses `int`), and floats are always
rejected, even whole-valued ones. -/
theorem C5_integer_type_check (v : Value) :
    validate_field_value "f" v (.dict [("type", .str "integer")]) =
      .ok ⟨(if isInstInt v then []
            else [⟨"f", "Expected integer, got " ++ v.typeName, some v⟩]), [], []⟩ := by
  cases v <;>
    simp +decide [validate_field_value, Value.lookup, typeCheckErrs, enumCheckErrs,
      strCheckErrs, patternCheck, minLengthCheck, maxLengthCheck,
      numCheckErrs, minimumCheck, maximumCheck, pyLtNum, pyGtNum, pyTruthy, Value.toRat?,
      isInstInt, Value.typeName, valueIsStr, Value.isDictV, Value.isListV,
      ValidationResult.empty, pure, Except.pure, bind, Except.bind]

/-- C6 (counterexample): an undeclared property under the default
("allowed") additional-properties policy produces NO warning (and no
error): the report is completely empty, where the claim says the property
is warned about. -/
theorem C6_counterexample :
    validate_object (.dict [("x", .int 1)])
        (.dict [("type", .str "object"),
                ("properties", .dict [("p", .dict [("type", .str "string")])])]) "body" =
      .ok ⟨[], [], []⟩ := by
  simp +decide [validate_object, validate_object_props, Value.lookup, pySet, pySetDedup,
    pyHashable, pyIn, pyEq, Value.toRat?, pure, Except.pure, bind, Except.bind,
    ValidationResult.empty]

/-- C6 (amended): during object validation an undeclared present property
is silently accepted (no warning, no error) when the additional-properties
policy is "allowed" (the default: `additionalProperties` absent or
`True`); it is an error at `<path>.<name>` when the policy is
`additionalProperties: false`; and it is validated against the
policy-supplied schema when `additionalProperties` is itself a schema. -/
theorem C6_additional_properties (n : String) (v : Value) (hn : n ≠ "p") :
    (validate_object (.dict [(n, v)])
        (.dict [("type", .str "object"),
                ("properties", .dict [("p", .dict [("type", .str "string")])])]) "body" =
      .ok ⟨[], [], []⟩) ∧
    (validate_object (.dict [(n, v)])
        (.dict [("type", .str "object"),
                ("properties", .dict [("p", .dict [("type", .str "string")])]),
                ("additionalProperties", .bool false)]) "body" =
      .ok ⟨[⟨"body." ++ n, "Additional property not allowed", none⟩], [], []⟩) ∧
    (validate_object (.dict [(n, v)])
        (.dict [("type", .str "object"),
                ("properties", .dict [("p", .dict [("type", .str "string")])]),
                ("additionalProperties", .dict [("type", .str "string")])]) "body" =
      (validate_field_value ("body." ++ n) v (.dict [("type", .str "string")])).map
        (fun r => ⟨r.errors, r.warnings, []⟩)) := by
  have hne : ("p" = n) = False := by simp [Ne.symm hn]
  refine ⟨?_, ?_, ?_⟩
  · simp +decide [validate_object, validate_object_props, Value.lookup, pySet, pySetDedup,
      pyHashable, pyIn, pyEq, hne, pure, Except.pure, bind, Except.bind,
      ValidationResult.empty]
  · simp +decide [validate_object, validate_object_props, Value.lookup, pySet, pySetDedup,
      pyHashable, pyIn, pyEq, hne, pure, Except.pure, bind, Except.bind,
      ValidationResult.empty]
  · cases hr : validate_field_value ("body." ++ n) v (.dict [("type", .str "string")]) <;>
      simp +decide [validate_object, validate_object_props, Value.lookup, pySet, pySetDedup,
        pyHashable, pyIn, pyEq, hne, hr, pure, Except.pure, bind, Except.bind,
        Except.map, ValidationResult.empty]

/-- C6 (witness): the amended theorem applied at property name `x`, value
`1`. -/
theorem C6_additional_properties_witness :
    validate_object (.dict [("x", .int 1)])
        (.dict [("type", .str "object"),
                ("properties", .dict [("p", .dict [("type", .str "string")])]),
                ("additionalProperties", .bool false)]) "body" =
      .ok ⟨[⟨"body.x", "Additional property not allowed", none⟩], [], []⟩ :=
  (C6_additional_properties "x" (.int 1) (by decide)).2.1

/-- C10: booleans pass wherever integers or numbers are expected (Python
`bool` is a subclass of `int`), and they take part in the numeric
minimum/maximum checks as 1 (`True`) and 0 (`False`): `False` violates
`minimum: 1` while `True` does not, and `True` violates `maximum: 0`
while `False` does not. -/
theorem C10_bool_as_number :
    validate_field_value "f" (.bool true) (.dict [("type", .str "integer")]) =
      .ok ⟨[], [], []⟩ ∧
    validate_field_value "f" (.bool false) (.dict [("type", .str "integer")]) =
      .ok ⟨[], [], []⟩ ∧
    validate_field_value "f" (.bool true) (.dict [("type", .str "number")]) =
      .ok ⟨[], [], []⟩ ∧
    validate_field_value "f" (.bool false) (.dict [("type", .str "number")]) =
      .ok ⟨[], [], []⟩ ∧
    (validate_field_value "f" (.bool false)
      (.dict [("type", .str "integer"), ("minimum", .int 1)])).map
        (fun r => r.errors.map ValidationError.field) = .ok ["f"] ∧
    (validate_field_value "f" (.bool true)
      (.dict [("type", .str "integer"), ("minimum", .int 1)])).map
        (fun r => r.errors.map ValidationError.field) = .ok [] ∧
    (validate_field_value "f" (.bool true)
      (.dict [("type", .str "integer"), ("maximum", .int 0)])).map
        (fun r => r.errors.map ValidationError.field) = .ok ["f"] ∧
    (validate_field_value "f" (.bool false)
      (.dict [("type", .str "integer"), ("maximum", .int 0)])).map
        (fun r => r.errors.map ValidationError.field) = .ok [] := by
  refine ⟨?_, ?_, ?_, ?_, ?_, ?_, ?_, ?_⟩ <;>
    simp +decide [validate_field_value, Value.lookup, typeCheckErrs, enumCheckErrs,
      strCheckErrs, numCheckErrs, minimumCheck, maximumCheck, pyLtNum, pyGtNum,
      pyTruthy, Value.toRat?, isInstInt, isInstNum, pyStr, pyStrAtom,
      valueIsStr, Value.isDictV, Value.isListV, ValidationResult.empty,
      pure, Except.pure, bind, Except.bind, Except.map]


/-- C9: the prompt planner sorts headers, query parameters and object
properties by the same rule — required fields first, then optional, ties
broken by ascending field name — stated as: each sorted list is a
permutation of its input and is pairwise ordered by the lexicographic
key order `promptKeyLE` on `(not required, name)`. -/
theorem C9_prompt_ordering (headersSchema querySchema properties : List (String × Value))
    (requiredFields : List Value) :
    ((sorted_headers headersSchema).Perm headersSchema ∧
      (sorted_headers headersSchema).Sorted
        (fun a b => promptKeyLE (headerSortKey a) (headerSortKey b))) ∧
    ((sorted_params querySchema).Perm querySchema ∧
      (sorted_params querySchema).Sorted
        (fun a b => promptKeyLE (headerSortKey a) (headerSortKey b))) ∧
    ((sorted_props properties requiredFields).Perm properties ∧
      (sorted_props properties requiredFields).Sorted
        (fun a b => promptKeyLE (propSortKey requiredFields a) (propSortKey requiredFields b))) := by
  haveI h1 : IsTotal (String × Value)
      (fun a b => promptKeyLE (headerSortKey a) (headerSortKey b)) :=
    ⟨fun a b => total_of promptKeyLE _ _⟩
  haveI h2 : IsTrans (String × Value)
      (fun a b => promptKeyLE (headerSortKey a) (headerSortKey b)) :=
    ⟨fun a b c hab hbc => IsTrans.trans _ _ _ hab hbc⟩
  haveI h3 : IsTotal (String × Value)
      (fun a b => promptKeyLE (propSortKey requiredFields a) (propSortKey requiredFields b)) :=
    ⟨fun a b => total_of promptKeyLE _ _⟩
  haveI h4 : IsTrans (String × Value)
      (fun a b => promptKeyLE (propSortKey requiredFields a) (propSortKey requiredFields b)) :=
    ⟨fun a b c hab hbc => IsTrans.trans _ _ _ hab hbc⟩
  exact ⟨⟨List.perm_insertionSort _ _, List.sorted_insertionSort _ _⟩,
         ⟨List.perm_insertionSort _ _, List.sorted_insertionSort _ _⟩,
         ⟨List.perm_insertionSort _ _, List.sorted_insertionSort _ _⟩⟩

/-- C8 (counterexample): `validate_request` is NOT total over arbitrary
endpoint schemas: a header schema carrying the invalid pattern `(`
makes the pattern compilation raise `re.error`, which propagates out of
`validate_request` — the anomaly is not routed into the report. -/
theorem C8_counterexample :
    validate_request
      ⟨"GET", "/x", none, none,
       [("X-Token", .dict [("type", .str "string"), ("required", .bool true),
                           ("pattern", .str "(")])], [], none, none, .dict []⟩
      (some [("X-Token", .str "t")]) none none none none =
      .error (.reError "missing ), unterminated subpattern") := by
  simp +decide [validate_request, methodCheckErrs, headersStep, queryStep, bodyStep, pathStep,
    validate_headers, requiredHeaderErrs, suppliedHeaderResults, validate_query_params,
    requiredQueryErrs, suppliedQueryResults, validate_field_value, Value.lookup,
    typeCheckErrs, enumCheckErrs, strCheckErrs, patternCheck, minLengthCheck, maxLengthCheck,
    numCheckErrs, minimumCheck, maximumCheck, py_dict_get, pyTruthy, Value.toRat?, pyLower,
    Regex.compile, parseRegexAlt, parseRegexCat, parseRegexRep, parseRegexAtom,
    add_suggestions, headerSuggestions, querySuggestions, bodyExampleSuggestion,
    valueIsStr, Value.isDictV, Value.isListV, ValidationResult.empty,
    pure, Except.pure, bind, Except.bind]

/-- C8 (amended): `validate_request` is total — never raises, returning a
report that routes every anomaly into errors/warnings/suggestions — for
every combination of supplied headers, query parameters, body, method and
path, provided the endpoint's schemas are well-formed (`wfEndpoint`:
every constraint well-typed and every carried pattern a compiling regex);
arbitrary pattern strings are excluded by the counterexample. -/
theorem C8_total_on_wf_endpoint (e : SchemaEndpoint)
    (headers queryParams : Option (List (String × Value))) (body : Option Value)
    (method path : Option String) (h : wfEndpoint e = true) :
    (validate_request e headers queryParams body method path).isOk = true :=
  validate_request_total e headers queryParams body method path h

/-- C8 (witness): the amended theorem applied at an endpoint whose header
schema carries the compiling pattern `a+b`. -/
theorem C8_total_on_wf_endpoint_witness :
    (validate_request
      ⟨"GET", "/x", none, none,
       [("X-Token", .dict [("type", .str "string"), ("pattern", .str "a+b")])],
       [], none, none, .dict []⟩
      (some [("X-Token", .str "ab")]) none none none none).isOk = true := by
  apply C8_total_on_wf_endpoint
  simp +decide [wfEndpoint, wfFieldSchema, wfSpecialEntries, wfFieldSchemaList, wfFlat,
    wfPattern, wfBound, wfEnum, wfRequired, wfBodySchemaOpt, Value.lookup, pyTruthy,
    Regex.compile, parseRegexAlt, parseRegexCat, parseRegexRep, parseRegexAtom,
    pure, Except.pure, bind, Except.bind, Except.isOk]

/-- C2 (counterexample): the loader does NOT resolve nested `$ref`s: for
an operation whose body schema is a `$ref` to component `A`, whose own
`properties.b` is itself a `$ref` to component `B`, the endpoint is
stored with `A`'s definition verbatim — the property `b` of the stored
body schema still contains a `$ref` key (`B` was never substituted). -/
theorem C2_counterexample :
    parse_endpoint "/users" "POST"
      (.dict [("requestBody", .dict [("content", .dict [("application/json",
          .dict [("schema", .dict [("$ref", .str "#/components/schemas/A")])])])])])
      (.dict [("schemas", .dict [
          ("A", .dict [("type", .str "object"),
                       ("properties", .dict [("b",
                          .dict [("$ref", .str "#/components/schemas/B")])])]),
          ("B", .dict [("type", .str "string")])])]) =
      .ok ⟨"POST", "/users", none, none, [], [],
           some (.dict [("type", .str "object"),
                        ("properties", .dict [("b",
                           .dict [("$ref", .str "#/components/schemas/B")])])]),
           none, .dict []⟩ := by
  simp [parse_endpoint, pydanticOptStr, pyIterate, parseParams, py_dict_get,
    Value.lookup, pyTruthy, findContentType, pyIn, pyGetItem, pyEq,
    resolve_schema_ref, resolveRefProps, resolveRefPropsList, strStartsWith, pySplitOn,
    pure, Except.pure, bind, Except.bind]

/-- C2 (amended): `$ref` resolution substitutes the named component
verbatim, one level only: for every `$ref` string pointing into
`#/components/schemas/` whose last `/`-separated segment names a stored
component, the resolver returns that component exactly as stored — nested
`$ref`s inside its properties are left in place. -/
theorem C2_ref_resolved_verbatim (r n : String) (comp : Value)
    (hpre : strStartsWith r "#/components/schemas/" = true)
    (hlast : (pySplitOn '/' r.data).getLastD "" = n) :
    resolve_schema_ref (.dict [("$ref", .str r)])
        (.dict [("schemas", .dict [(n, comp)])]) = .ok comp := by
  unfold resolve_schema_ref
  rw [List.getLastD_eq_getLast?] at hlast
  simp [Value.lookup, hpre, hlast, py_dict_get, pure, Except.pure, bind, Except.bind]

/-- C2 (witness): the amended theorem applied at the reference
`#/components/schemas/A` and a component `A` whose property `b` still
carries a nested `$ref`. -/
theorem C2_ref_resolved_verbatim_witness :
    resolve_schema_ref (.dict [("$ref", .str "#/components/schemas/A")])
        (.dict [("schemas", .dict [("A",
          .dict [("properties", .dict [("b",
             .dict [("$ref", .str "#/components/schemas/B")])])])])]) =
      .ok (.dict [("properties", .dict [("b",
             .dict [("$ref", .str "#/components/schemas/B")])])]) :=
  C2_ref_resolved_verbatim "#/components/schemas/A" "A" _ (by decide) (by decide)

/-- C4 (counterexample): parsing is NOT resilient to a malformed
individual operation: a document whose `paths` maps `/u` to
`{"get": 5}` raises `AttributeError` out of the whole parse (there
is no per-operation exception handler), instead of skipping the
operation. -/
theorem C4_counterexample :
    parse_openapi_schema
      (.dict [("paths", .dict [("/u", .dict [("get", .int 5)])])]) "" =
      .error (.attributeError "int object has no attribute get") := by
  simp +decide [parse_openapi_schema, parsePathsList, parseMethodsList, parse_endpoint,
    httpMethodNames, pyLower, pyUpper, py_dict_get, Value.lookup, pydanticStr,
    Value.typeName, pure, Except.pure, bind, Except.bind]

/-- C4 (amended): for every schema document (a dict) lacking `paths`,
`info` and `components` sections, parsing returns a best-effort
`APISchema` with an empty endpoint list, title fallback `API` and version
fallback `1.0.0`; resilience to malformed individual operations does not
hold (see the counterexample). -/
theorem C4_missing_paths (doc : List (String × Value)) (baseUrl : String)
    (hpaths : Value.lookup "paths" doc = none)
    (hinfo : Value.lookup "info" doc = none)
    (hcomp : Value.lookup "components" doc = none) :
    parse_openapi_schema (.dict doc) baseUrl =
      .ok ⟨"API", "1.0.0", baseUrl, [], .dict [], .dict []⟩ := by
  unfold parse_openapi_schema
  simp [hpaths, hinfo, hcomp, py_dict_get, Value.lookup, pydanticStr, parsePathsList,
    pure, Except.pure, bind, Except.bind]

/-- C4 (witness): the amended theorem applied at the empty document. -/
theorem C4_missing_paths_witness :
    parse_openapi_schema (.dict []) "http://localhost" =
      .ok ⟨"API", "1.0.0", "http://localhost", [], .dict [], .dict []⟩ :=
  C4_missing_paths [] "http://localhost" rfl rfl rfl

/-- C7 (counterexample): a declared-but-optional query parameter with the
default `0` that was not supplied produces NO suggestion: the suggestion
is gated on the default's truthiness (`field_def.get("default")` in a
boolean position), and `0` is falsy — the whole report is empty. -/
theorem C7_counterexample :
    validate_request
      ⟨"GET", "/items", none, none, [],
       [("page", .dict [("type", .str "integer"), ("required", .bool false),
                        ("default", .int 0)])], none, none, .dict []⟩
      none none none none none = .ok ⟨[], [], []⟩ := by
  simp +decide [validate_request, methodCheckErrs, headersStep, queryStep, bodyStep, pathStep,
    validate_query_params, requiredQueryErrs, suppliedQueryResults, add_suggestions,
    headerSuggestions, querySuggestions, bodyExampleSuggestion, py_dict_get, Value.lookup,
    pyTruthy, ValidationResult.empty, pure, Except.pure, bind, Except.bind]

/-- C7 (amended): for a declared-but-optional header or query field whose
default is TRUTHY, not supplying the field yields exactly one suggestion
naming the field and its default, and supplying any value for it
suppresses the suggestion (for falsy defaults such as `0` no suggestion
is ever emitted — see the counterexample). -/
theorem C7_default_suggestions (name : String) (d : List (String × Value)) (dflt : Value)
    (supplied : List (String × Value)) (v : Value)
    (hreq : pyTruthy ((Value.lookup "required" d).getD (.bool false)) = false)
    (hdflt : Value.lookup "default" d = some dflt)
    (ht : pyTruthy dflt = true)
    (hsup : Value.lookup name supplied = some v) :
    (headerSuggestions [(name, .dict d)] none =
      .ok [s!"Consider adding header '{name}' with default value: {pyStr dflt}"]) ∧
    (headerSuggestions [(name, .dict d)] (some supplied) = .ok []) ∧
    (querySuggestions [(name, .dict d)] none =
      .ok [s!"Consider adding query parameter '{name}' with default value: {pyStr dflt}"]) ∧
    (querySuggestions [(name, .dict d)] (some supplied) = .ok []) := by
  have hne : supplied.isEmpty = false := by
    cases supplied with
    | nil => simp [Value.lookup] at hsup
    | cons a l => rfl
  refine ⟨?_, ?_, ?_, ?_⟩ <;>
    simp [headerSuggestions, querySuggestions, py_dict_get, hreq, hdflt, ht, hsup, hne,
      pure, Except.pure, bind, Except.bind]

/-- C7 (witness): the amended theorem applied at an optional query
parameter `page` with default `1`, supplied as `"2"` for the suppression
half. -/
theorem C7_default_suggestions_witness :
    (querySuggestions [("page", .dict [("required", .bool false), ("default", .int 1)])]
        none =
      .ok ["Consider adding query parameter 'page' with default value: 1"]) ∧
    (querySuggestions [("page", .dict [("required", .bool false), ("default", .int 1)])]
        (some [("page", .str "2")]) = .ok []) := by
  have h := C7_default_suggestions "page" [("required", .bool false), ("default", .int 1)]
    (.int 1) [("page", .str "2")] (.str "2") (by decide) rfl (by decide) rfl
  refine ⟨?_, h.2.2.2⟩
  have h3 := h.2.2.1
  simpa [pyStr, pyStrAtom] using h3

end ApiCrafter
